import Mathlib

/-!
Verification of the corpus-record codec and mutator of `src/fuzz/fuzz_assert.c`
(libfido2 fuzzing harness for the FIDO2/U2F get-assertion operation).

Buffers are modelled as `List Nat` of byte values; machine integers are `Nat`
with explicit `% 2 ^ w` where the width matters.  The record codec (`unpack`,
`pack`), the example data, the mutator entry point `LLVMFuzzerCustomMutator`,
`pack_dummy` and the exercise entry point `LLVMFuzzerTestOneInput` are
translated from the source.  The field-level codec (`unpack_byte`, `pack_byte`
and friends) and the field mutators (`mutate_byte` and friends) live in
`fuzz/mutator_aux.c`, which is not part of the sources here; they are modelled
from the specification, as marked on each definition.
-/

set_option maxRecDepth 100000

/-- Decode-side error kinds of the field codec (spec section 7:
`Truncated`, `TagMismatch`, `Overflow`). -/
inductive Err where
  | truncated
  | tagMismatch
  | overflow
deriving DecidableEq

/-- Modelled from the spec: capacity of a bounded string field
(`MAXSTR` of `mutator_aux.h`, not under `src/`). -/
def MAXSTR : Nat := 1024

/-- Modelled from the spec: capacity of a bounded blob field
(`MAXBLOB` of `mutator_aux.h`, not under `src/`). -/
def MAXBLOB : Nat := 3072

def TAG_U2F : Nat := 0x01
def TAG_TYPE : Nat := 0x02
def TAG_CDH : Nat := 0x03
def TAG_RP_ID : Nat := 0x04
def TAG_EXT : Nat := 0x05
def TAG_SEED : Nat := 0x06
def TAG_UP : Nat := 0x07
def TAG_UV : Nat := 0x08
def TAG_WIRE_DATA : Nat := 0x09
def TAG_CRED_COUNT : Nat := 0x0a
def TAG_CRED : Nat := 0x0b
def TAG_ES256 : Nat := 0x0c
def TAG_RS256 : Nat := 0x0d
def TAG_PIN : Nat := 0x0e
def TAG_EDDSA : Nat := 0x0f

/-- Little-endian bytes of `n`, `k` bytes wide. -/
def leBytes : Nat → Nat → List Nat
  | 0, _ => []
  | k + 1, n => n % 256 :: leBytes k (n / 256)

/-- Little-endian decoding of a byte list. -/
def decLE (bs : List Nat) : Nat :=
  bs.foldr (fun b acc => b + 256 * acc) 0

/-- Modelled from the spec: `unpack_byte` of `mutator_aux.c` (not under
`src/`); spec section 4.1 `read_tagged_scalar`: `Truncated` when fewer than
tag + value bytes remain, `TagMismatch` when the leading byte differs from
the expected tag, else the value byte. -/
def unpack_byte (tag : Nat) (bs : List Nat) : Except Err (Nat × List Nat) :=
  if bs.length < 2 then .error .truncated
  else if bs.getD 0 0 = tag then .ok (bs.getD 1 0, bs.drop 2)
  else .error .tagMismatch

/-- Modelled from the spec: `unpack_int` of `mutator_aux.c` (not under
`src/`); spec section 4.1 `read_tagged_varint`: tag plus a fixed-width
(4-byte little-endian) binary integer, `Truncated` when insufficient bytes
remain. -/
def unpack_int (tag : Nat) (bs : List Nat) : Except Err (Nat × List Nat) :=
  if bs.length < 5 then .error .truncated
  else if bs.getD 0 0 = tag then .ok (decLE ((bs.drop 1).take 4), bs.drop 5)
  else .error .tagMismatch

/-- Modelled from the spec: `unpack_blob` of `mutator_aux.c` (not under
`src/`); spec section 4.1 `read_tagged_blob`: tag plus an 8-byte length
prefix plus exactly that many payload bytes; `Overflow` when the declared
length exceeds the capacity, `Truncated` when the payload exceeds the
remaining bytes. -/
def unpack_blob (tag : Nat) (bs : List Nat) : Except Err (List Nat × List Nat) :=
  if bs.length < 9 then .error .truncated
  else if bs.getD 0 0 = tag then
    if MAXBLOB < decLE ((bs.drop 1).take 8) then .error .overflow
    else if (bs.drop 9).length < decLE ((bs.drop 1).take 8) then .error .truncated
    else .ok ((bs.drop 9).take (decLE ((bs.drop 1).take 8)),
              (bs.drop 9).drop (decLE ((bs.drop 1).take 8)))
  else .error .tagMismatch

/-- Modelled from the spec: `unpack_string` of `mutator_aux.c` (not under
`src/`); spec section 4.1 `read_tagged_string`: like a blob but the declared
length must leave room for a terminator (`Overflow` when it exceeds
capacity − 1) and the result is the content up to the first NUL. -/
def unpack_string (tag : Nat) (bs : List Nat) : Except Err (List Nat × List Nat) :=
  if bs.length < 9 then .error .truncated
  else if bs.getD 0 0 = tag then
    if MAXSTR ≤ decLE ((bs.drop 1).take 8) then .error .overflow
    else if (bs.drop 9).length < decLE ((bs.drop 1).take 8) then .error .truncated
    else .ok (((bs.drop 9).take (decLE ((bs.drop 1).take 8))).takeWhile (fun b => b != 0),
              (bs.drop 9).drop (decLE ((bs.drop 1).take 8)))
  else .error .tagMismatch

/-- Modelled from the spec: `pack_byte` of `mutator_aux.c` (not under
`src/`); spec section 4.1 encode side, exact inverse of the read. -/
def pack_byte (tag v : Nat) : List Nat := [tag, v]

/-- Modelled from the spec: `pack_int` of `mutator_aux.c` (not under
`src/`); tag plus the 4-byte little-endian integer. -/
def pack_int (tag v : Nat) : List Nat := tag :: leBytes 4 v

/-- Modelled from the spec: `pack_blob` of `mutator_aux.c` (not under
`src/`); tag plus 8-byte length prefix plus the payload. -/
def pack_blob (tag : Nat) (b : List Nat) : List Nat := tag :: (leBytes 8 b.length ++ b)

/-- Modelled from the spec: `pack_string` of `mutator_aux.c` (not under
`src/`); the wire carries the content bytes up to (excluding) the NUL. -/
def pack_string (tag : Nat) (s : List Nat) : List Nat := tag :: (leBytes 8 s.length ++ s)

/-- The record type `struct param` of `fuzz_assert.c`.  Strings are the content up to the
first NUL; blobs are the `len`-byte body prefix; the two C `int` fields
carry their 32-bit pattern. -/
structure Param where
  pin : List Nat
  rp_id : List Nat
  ext : Nat
  seed : Nat
  cdh : List Nat
  cred : List Nat
  es256 : List Nat
  rs256 : List Nat
  eddsa : List Nat
  wire_data : List Nat
  cred_count : Nat
  type : Nat
  u2f : Nat
  up : Nat
  uv : Nat
deriving DecidableEq

/-- A string field value constructible in the C record: NUL-terminated
within its capacity (so the content is shorter than `MAXSTR` and free of
NUL bytes), made of bytes. -/
def wfStr (s : List Nat) : Prop :=
  s.length + 1 ≤ MAXSTR ∧ ∀ b ∈ s, b ≠ 0 ∧ b < 256

/-- A blob field value constructible in the C record: length within the
declared capacity, made of bytes. -/
def wfBlob (b : List Nat) : Prop :=
  b.length ≤ MAXBLOB ∧ ∀ x ∈ b, x < 256

/-- A record constructible within its field capacities. -/
def wfParam (p : Param) : Prop :=
  wfStr p.pin ∧ wfStr p.rp_id ∧ p.ext < 2 ^ 32 ∧ p.seed < 2 ^ 32 ∧
  wfBlob p.cdh ∧ wfBlob p.cred ∧ wfBlob p.es256 ∧ wfBlob p.rs256 ∧
  wfBlob p.eddsa ∧ wfBlob p.wire_data ∧ p.cred_count < 256 ∧
  p.type < 256 ∧ p.u2f < 256 ∧ p.up < 256 ∧ p.uv < 256

instance : DecidablePred wfStr := fun s => by unfold wfStr; infer_instance
instance : DecidablePred wfBlob := fun b => by unfold wfBlob; infer_instance
instance : DecidablePred wfParam := fun p => by unfold wfParam; infer_instance

/-- Translation of `unpack` of `fuzz_assert.c` (lines 299-322): fifteen field reads in a
fixed tag order; the first failing field aborts the whole decode.  Trailing
bytes after the last field are not inspected. -/
def unpack (bs : List Nat) : Except Err Param :=
  (unpack_byte TAG_UV bs).bind fun a1 =>
  (unpack_byte TAG_UP a1.2).bind fun a2 =>
  (unpack_byte TAG_U2F a2.2).bind fun a3 =>
  (unpack_byte TAG_TYPE a3.2).bind fun a4 =>
  (unpack_byte TAG_CRED_COUNT a4.2).bind fun a5 =>
  (unpack_int TAG_EXT a5.2).bind fun a6 =>
  (unpack_int TAG_SEED a6.2).bind fun a7 =>
  (unpack_string TAG_RP_ID a7.2).bind fun a8 =>
  (unpack_string TAG_PIN a8.2).bind fun a9 =>
  (unpack_blob TAG_WIRE_DATA a9.2).bind fun a10 =>
  (unpack_blob TAG_RS256 a10.2).bind fun a11 =>
  (unpack_blob TAG_ES256 a11.2).bind fun a12 =>
  (unpack_blob TAG_EDDSA a12.2).bind fun a13 =>
  (unpack_blob TAG_CRED a13.2).bind fun a14 =>
  (unpack_blob TAG_CDH a14.2).bind fun a15 =>
  .ok { pin := a9.1, rp_id := a8.1, ext := a6.1, seed := a7.1, cdh := a15.1,
        cred := a14.1, es256 := a12.1, rs256 := a11.1, eddsa := a13.1,
        wire_data := a10.1, cred_count := a5.1, type := a4.1, u2f := a3.1,
        up := a2.1, uv := a1.1 }

/-- The bytes `pack` of `fuzz_assert.c` (lines 324-347) writes: the fifteen
fields in the same fixed order as `unpack`. -/
def encParam (p : Param) : List Nat :=
  pack_byte TAG_UV p.uv ++ (pack_byte TAG_UP p.up ++ (pack_byte TAG_U2F p.u2f ++
  (pack_byte TAG_TYPE p.type ++ (pack_byte TAG_CRED_COUNT p.cred_count ++
  (pack_int TAG_EXT p.ext ++ (pack_int TAG_SEED p.seed ++
  (pack_string TAG_RP_ID p.rp_id ++ (pack_string TAG_PIN p.pin ++
  (pack_blob TAG_WIRE_DATA p.wire_data ++ (pack_blob TAG_RS256 p.rs256 ++
  (pack_blob TAG_ES256 p.es256 ++ (pack_blob TAG_EDDSA p.eddsa ++
  (pack_blob TAG_CRED p.cred ++ pack_blob TAG_CDH p.cdh)))))))))))))

/-- Translation of `pack` of `fuzz_assert.c` (lines 324-347) against a buffer of capacity
`cap`: each field write is all-or-nothing and the first field that does not
fit makes the whole pack return 0 (`none`); hence pack succeeds exactly when
the full encoding fits, and then the buffer holds `encParam p`. -/
def pack (cap : Nat) (p : Param) : Option (List Nat) :=
  if (encParam p).length ≤ cap then some (encParam p) else none

/-- The fifteen expected tag bytes in the order `unpack` reads them. -/
def tagsList : List Nat :=
  [TAG_UV, TAG_UP, TAG_U2F, TAG_TYPE, TAG_CRED_COUNT, TAG_EXT, TAG_SEED,
   TAG_RP_ID, TAG_PIN, TAG_WIRE_DATA, TAG_RS256, TAG_ES256, TAG_EDDSA,
   TAG_CRED, TAG_CDH]

/-- Offsets of the fifteen tag bytes inside `encParam p`. -/
def tagOffsets (p : Param) : List Nat :=
  [0, 2, 4, 6, 8, 10, 15, 20,
   29 + p.rp_id.length,
   38 + p.rp_id.length + p.pin.length,
   47 + p.rp_id.length + p.pin.length + p.wire_data.length,
   56 + p.rp_id.length + p.pin.length + p.wire_data.length + p.rs256.length,
   65 + p.rp_id.length + p.pin.length + p.wire_data.length + p.rs256.length +
     p.es256.length,
   74 + p.rp_id.length + p.pin.length + p.wire_data.length + p.rs256.length +
     p.es256.length + p.eddsa.length,
   83 + p.rp_id.length + p.pin.length + p.wire_data.length + p.rs256.length +
     p.es256.length + p.eddsa.length + p.cred.length]

/-! ### List and arithmetic helpers -/

theorem ok_bind {α β : Type} (a : α) (f : α → Except Err β) :
    (Except.ok a : Except Err α).bind f = f a := rfl

theorem error_bind {α β : Type} (e : Err) (f : α → Except Err β) :
    (Except.error e : Except Err α).bind f = .error e := rfl

theorem setAppendLen (l1 l2 : List Nat) (n c : Nat) :
    (l1 ++ l2).set (l1.length + n) c = l1 ++ l2.set n c := by
  induction l1 with
  | nil => simp
  | cons a t ih => simp [List.set, Nat.succ_add, ih]

theorem getDTakeZero (l : List Nat) (j d : Nat) (h : 0 < j) :
    (l.take j).getD 0 d = l.getD 0 d := by
  cases l <;> cases j <;> simp_all

theorem getDSetZero (l : List Nat) (c d : Nat) (h : l ≠ []) :
    (l.set 0 c).getD 0 d = c := by
  cases l <;> simp_all

theorem takeWhileNeZero (s : List Nat) (h : ∀ b ∈ s, b ≠ 0) :
    s.takeWhile (fun b => b != 0) = s := by
  induction s with
  | nil => rfl
  | cons a t ih =>
    have ha : (a != 0) = true := by simp [h a (by simp)]
    have ht := ih fun b hb => h b (List.mem_cons_of_mem _ hb)
    simp [List.takeWhile, ha, ht]

theorem leBytes_length (k n : Nat) : (leBytes k n).length = k := by
  induction k generalizing n with
  | zero => rfl
  | succ k ih => simp [leBytes, ih]

theorem decLE_cons (b : Nat) (bs : List Nat) : decLE (b :: bs) = b + 256 * decLE bs := rfl

theorem decLE_leBytes (k n : Nat) : decLE (leBytes k n) = n % 256 ^ k := by
  induction k generalizing n with
  | zero => simp [leBytes, decLE, Nat.mod_one]
  | succ k ih =>
    rw [leBytes, decLE_cons, ih, Nat.pow_succ,
      show (256 : Nat) ^ k * 256 = 256 * 256 ^ k by ring, Nat.mod_mul]

theorem decLE_leBytes_lt (k n : Nat) (h : n < 256 ^ k) : decLE (leBytes k n) = n := by
  rw [decLE_leBytes, Nat.mod_eq_of_lt h]

theorem takeLenAppend (l1 l2 : List Nat) : (l1 ++ l2).take l1.length = l1 := by
  rw [List.take_append_of_le_length (Nat.le_refl _), List.take_of_length_le (Nat.le_refl _)]

theorem dropLenAppend (l1 l2 : List Nat) : (l1 ++ l2).drop l1.length = l2 := by
  rw [List.drop_append_of_le_length (Nat.le_refl _), List.drop_length, List.nil_append]

theorem takeEqAppend (l1 l2 : List Nat) (n : Nat) (h : l1.length = n) :
    (l1 ++ l2).take n = l1 := by
  subst h; exact takeLenAppend l1 l2

theorem dropEqAppend (l1 l2 : List Nat) (n : Nat) (h : l1.length = n) :
    (l1 ++ l2).drop n = l2 := by
  subst h; exact dropLenAppend l1 l2

/-! ### Round-trip lemmas of the field codec -/

theorem unpack_byte_rt (t v : Nat) (rest : List Nat) :
    unpack_byte t (pack_byte t v ++ rest) = .ok (v, rest) := by
  simp [unpack_byte, pack_byte]

theorem unpack_int_rt (t v : Nat) (hv : v < 2 ^ 32) (rest : List Nat) :
    unpack_int t (pack_int t v ++ rest) = .ok (v, rest) := by
  have hlen : (leBytes 4 v).length = 4 := leBytes_length 4 v
  have h1 : (leBytes 4 v ++ rest).take 4 = leBytes 4 v := takeEqAppend _ _ 4 hlen
  have h2 : (leBytes 4 v ++ rest).drop 4 = rest := dropEqAppend _ _ 4 hlen
  have hd : decLE (leBytes 4 v) = v := decLE_leBytes_lt 4 v (by norm_num at hv ⊢; omega)
  simp [unpack_int, pack_int, hlen, h1, h2, hd]

theorem unpack_blob_rt (t : Nat) (b : List Nat) (hb : b.length ≤ MAXBLOB)
    (rest : List Nat) :
    unpack_blob t (pack_blob t b ++ rest) = .ok (b, rest) := by
  have hlen : (leBytes 8 b.length).length = 8 := leBytes_length 8 b.length
  have h1 : (leBytes 8 b.length ++ (b ++ rest)).take 8 = leBytes 8 b.length :=
    takeEqAppend _ _ 8 hlen
  have h2 : (leBytes 8 b.length ++ (b ++ rest)).drop 8 = b ++ rest :=
    dropEqAppend _ _ 8 hlen
  have hd : decLE (leBytes 8 b.length) = b.length :=
    decLE_leBytes_lt 8 b.length
      (by unfold MAXBLOB at hb
          have hp : (256 : Nat) ^ 8 = 18446744073709551616 := by norm_num
          omega)
  have hcap : ¬ MAXBLOB < b.length := Nat.not_lt.mpr hb
  simp [unpack_blob, pack_blob, List.append_assoc, hlen, h1, h2, hd, hcap,
    takeLenAppend, dropLenAppend]

theorem unpack_string_rt (t : Nat) (s : List Nat) (hs : s.length + 1 ≤ MAXSTR)
    (hz : ∀ b ∈ s, b ≠ 0) (rest : List Nat) :
    unpack_string t (pack_string t s ++ rest) = .ok (s, rest) := by
  have hlen : (leBytes 8 s.length).length = 8 := leBytes_length 8 s.length
  have h1 : (leBytes 8 s.length ++ (s ++ rest)).take 8 = leBytes 8 s.length :=
    takeEqAppend _ _ 8 hlen
  have h2 : (leBytes 8 s.length ++ (s ++ rest)).drop 8 = s ++ rest :=
    dropEqAppend _ _ 8 hlen
  have hd : decLE (leBytes 8 s.length) = s.length :=
    decLE_leBytes_lt 8 s.length
      (by unfold MAXSTR at hs
          have hp : (256 : Nat) ^ 8 = 18446744073709551616 := by norm_num
          omega)
  have hcap : ¬ MAXSTR ≤ s.length := by unfold MAXSTR at hs ⊢; omega
  simp [unpack_string, pack_string, List.append_assoc, hlen, h1, h2, hd, hcap,
    takeLenAppend, dropLenAppend, takeWhileNeZero s hz]

/-! ### Prefix-failure lemmas: a strict prefix of one encoded field fails -/

theorem decLE_len8_small (n : Nat) (h : n ≤ 4096) : decLE (leBytes 8 n) = n :=
  decLE_leBytes_lt 8 n
    (by have hp : (256 : Nat) ^ 8 = 18446744073709551616 := by norm_num
        omega)

theorem unpack_byte_pre (t v j : Nat) (hj : j < (pack_byte t v).length) :
    unpack_byte t ((pack_byte t v).take j) = .error .truncated := by
  rw [show (pack_byte t v).length = 2 by rfl] at hj
  have hl : ((pack_byte t v).take j).length < 2 := by
    simp [pack_byte, List.length_take]
    omega
  unfold unpack_byte
  rw [if_pos hl]

theorem unpack_int_pre (t v j : Nat) (hj : j < (pack_int t v).length) :
    unpack_int t ((pack_int t v).take j) = .error .truncated := by
  rw [show (pack_int t v).length = 5 by simp [pack_int, leBytes_length]] at hj
  have hl : ((pack_int t v).take j).length < 5 := by
    simp [pack_int, List.length_take, leBytes_length]
    omega
  unfold unpack_int
  rw [if_pos hl]

theorem unpack_blob_pre (t : Nat) (b : List Nat) (hb : b.length ≤ MAXBLOB) (j : Nat)
    (hj : j < (pack_blob t b).length) :
    unpack_blob t ((pack_blob t b).take j) = .error .truncated := by
  have hplen : (pack_blob t b).length = 9 + b.length := by
    simp [pack_blob, leBytes_length]
    omega
  have htl : ((pack_blob t b).take j).length = j := by
    simp [List.length_take]
    omega
  by_cases h9 : j < 9
  · unfold unpack_blob
    rw [if_pos (by omega)]
  · have hgd : ((pack_blob t b).take j).getD 0 0 = t := by
      rw [getDTakeZero _ _ _ (by omega)]
      simp [pack_blob]
    have hdt : (((pack_blob t b).take j).drop 1).take 8 = leBytes 8 b.length := by
      rw [List.drop_take, List.take_take]
      have hmin : min 8 (j - 1) = 8 := by omega
      rw [hmin]
      show ((pack_blob t b).drop 1).take 8 = _
      simp only [pack_blob, List.drop_one, List.tail_cons]
      exact takeEqAppend _ _ 8 (leBytes_length 8 b.length)
    have hrest : (((pack_blob t b).take j).drop 9).length < decLE ((((pack_blob t b).take j).drop 1).take 8) := by
      rw [hdt, decLE_len8_small b.length (by unfold MAXBLOB at hb; omega)]
      simp [List.length_drop, htl]
      omega
    unfold unpack_blob
    rw [if_neg (by omega), if_pos hgd,
      if_neg (by rw [hdt, decLE_len8_small b.length (by unfold MAXBLOB at hb; omega)]; exact Nat.not_lt.mpr hb),
      if_pos hrest]

theorem unpack_string_pre (t : Nat) (s : List Nat) (hs : s.length + 1 ≤ MAXSTR) (j : Nat)
    (hj : j < (pack_string t s).length) :
    unpack_string t ((pack_string t s).take j) = .error .truncated := by
  have hplen : (pack_string t s).length = 9 + s.length := by
    simp [pack_string, leBytes_length]
    omega
  have htl : ((pack_string t s).take j).length = j := by
    simp [List.length_take]
    omega
  by_cases h9 : j < 9
  · unfold unpack_string
    rw [if_pos (by omega)]
  · have hgd : ((pack_string t s).take j).getD 0 0 = t := by
      rw [getDTakeZero _ _ _ (by omega)]
      simp [pack_string]
    have hdt : (((pack_string t s).take j).drop 1).take 8 = leBytes 8 s.length := by
      rw [List.drop_take, List.take_take]
      have hmin : min 8 (j - 1) = 8 := by omega
      rw [hmin]
      show ((pack_string t s).drop 1).take 8 = _
      simp only [pack_string, List.drop_one, List.tail_cons]
      exact takeEqAppend _ _ 8 (leBytes_length 8 s.length)
    have hds : decLE (leBytes 8 s.length) = s.length :=
      decLE_len8_small s.length (by unfold MAXSTR at hs; omega)
    have hrest : (((pack_string t s).take j).drop 9).length < decLE ((((pack_string t s).take j).drop 1).take 8) := by
      rw [hdt, hds]
      simp [List.length_drop, htl]
      omega
    unfold unpack_string
    rw [if_neg (by omega), if_pos hgd,
      if_neg (by rw [hdt, hds]; unfold MAXSTR at hs ⊢; omega),
      if_pos hrest]

/-! ### Tag-corruption lemmas: a wrong leading tag byte is a tag mismatch -/

theorem unpack_byte_tc (t c : Nat) (bs : List Nat) (hlen : 2 ≤ bs.length)
    (hgd : bs.getD 0 0 = c) (hc : c ≠ t) :
    unpack_byte t bs = .error .tagMismatch := by
  unfold unpack_byte
  rw [if_neg (by omega), if_neg (by rw [hgd]; exact hc)]

theorem unpack_int_tc (t c : Nat) (bs : List Nat) (hlen : 5 ≤ bs.length)
    (hgd : bs.getD 0 0 = c) (hc : c ≠ t) :
    unpack_int t bs = .error .tagMismatch := by
  unfold unpack_int
  rw [if_neg (by omega), if_neg (by rw [hgd]; exact hc)]

theorem unpack_blob_tc (t c : Nat) (bs : List Nat) (hlen : 9 ≤ bs.length)
    (hgd : bs.getD 0 0 = c) (hc : c ≠ t) :
    unpack_blob t bs = .error .tagMismatch := by
  unfold unpack_blob
  rw [if_neg (by omega), if_neg (by rw [hgd]; exact hc)]

theorem unpack_string_tc (t c : Nat) (bs : List Nat) (hlen : 9 ≤ bs.length)
    (hgd : bs.getD 0 0 = c) (hc : c ≠ t) :
    unpack_string t bs = .error .tagMismatch := by
  unfold unpack_string
  rw [if_neg (by omega), if_neg (by rw [hgd]; exact hc)]

/-! ### Extension lemmas: appending bytes after a successful read changes
only the leftover, not the value -/

theorem unpack_byte_ext (t : Nat) (bs ex : List Nat) (v : Nat) (rest : List Nat)
    (h : unpack_byte t bs = .ok (v, rest)) :
    unpack_byte t (bs ++ ex) = .ok (v, rest ++ ex) := by
  unfold unpack_byte at h ⊢
  by_cases h1 : bs.length < 2
  · rw [if_pos h1] at h
    exact Except.noConfusion h
  · rw [if_neg h1] at h
    by_cases h2 : bs.getD 0 0 = t
    · rw [if_pos h2] at h
      rw [Except.ok.injEq, Prod.mk.injEq] at h
      obtain ⟨hv, hr⟩ := h
      rw [if_neg (by simp; omega),
        if_pos (by rw [List.getD_append _ _ _ _ (by omega)]; exact h2),
        List.getD_append _ _ _ _ (by omega), hv,
        List.drop_append_of_le_length (by omega), hr]
    · rw [if_neg h2] at h
      exact Except.noConfusion h

theorem unpack_int_ext (t : Nat) (bs ex : List Nat) (v : Nat) (rest : List Nat)
    (h : unpack_int t bs = .ok (v, rest)) :
    unpack_int t (bs ++ ex) = .ok (v, rest ++ ex) := by
  unfold unpack_int at h ⊢
  by_cases h1 : bs.length < 5
  · rw [if_pos h1] at h
    exact Except.noConfusion h
  · rw [if_neg h1] at h
    by_cases h2 : bs.getD 0 0 = t
    · rw [if_pos h2] at h
      rw [Except.ok.injEq, Prod.mk.injEq] at h
      obtain ⟨hv, hr⟩ := h
      have hdr : (bs ++ ex).drop 1 = bs.drop 1 ++ ex :=
        List.drop_append_of_le_length (by omega)
      have htk : (bs.drop 1 ++ ex).take 4 = (bs.drop 1).take 4 :=
        List.take_append_of_le_length (by simp [List.length_drop]; omega)
      rw [if_neg (by simp; omega),
        if_pos (by rw [List.getD_append _ _ _ _ (by omega)]; exact h2),
        hdr, htk, hv, List.drop_append_of_le_length (by omega), hr]
    · rw [if_neg h2] at h
      exact Except.noConfusion h

theorem unpack_blob_ext (t : Nat) (bs ex : List Nat) (b : List Nat) (rest : List Nat)
    (h : unpack_blob t bs = .ok (b, rest)) :
    unpack_blob t (bs ++ ex) = .ok (b, rest ++ ex) := by
  unfold unpack_blob at h ⊢
  by_cases h1 : bs.length < 9
  · rw [if_pos h1] at h
    exact Except.noConfusion h
  rw [if_neg h1] at h
  by_cases h2 : bs.getD 0 0 = t
  swap
  · rw [if_neg h2] at h
    exact Except.noConfusion h
  rw [if_pos h2] at h
  by_cases h3 : MAXBLOB < decLE ((bs.drop 1).take 8)
  · rw [if_pos h3] at h
    exact Except.noConfusion h
  rw [if_neg h3] at h
  by_cases h4 : (bs.drop 9).length < decLE ((bs.drop 1).take 8)
  · rw [if_pos h4] at h
    exact Except.noConfusion h
  rw [if_neg h4] at h
  rw [Except.ok.injEq, Prod.mk.injEq] at h
  obtain ⟨hv, hr⟩ := h
  have hdr : (bs ++ ex).drop 1 = bs.drop 1 ++ ex :=
    List.drop_append_of_le_length (by omega)
  have htk : (bs.drop 1 ++ ex).take 8 = (bs.drop 1).take 8 :=
    List.take_append_of_le_length (by simp [List.length_drop]; omega)
  have hdr9 : (bs ++ ex).drop 9 = bs.drop 9 ++ ex :=
    List.drop_append_of_le_length (by omega)
  have htkl : (bs.drop 9 ++ ex).take (decLE ((bs.drop 1).take 8)) =
      (bs.drop 9).take (decLE ((bs.drop 1).take 8)) :=
    List.take_append_of_le_length (by omega)
  have hdrl : (bs.drop 9 ++ ex).drop (decLE ((bs.drop 1).take 8)) =
      (bs.drop 9).drop (decLE ((bs.drop 1).take 8)) ++ ex :=
    List.drop_append_of_le_length (by omega)
  rw [if_neg (by simp; omega),
    if_pos (by rw [List.getD_append _ _ _ _ (by omega)]; exact h2),
    hdr, htk, if_neg h3, hdr9,
    if_neg (by rw [List.length_append]; omega),
    htkl, hv, hdrl, hr]

theorem unpack_string_ext (t : Nat) (bs ex : List Nat) (s : List Nat) (rest : List Nat)
    (h : unpack_string t bs = .ok (s, rest)) :
    unpack_string t (bs ++ ex) = .ok (s, rest ++ ex) := by
  unfold unpack_string at h ⊢
  by_cases h1 : bs.length < 9
  · rw [if_pos h1] at h
    exact Except.noConfusion h
  rw [if_neg h1] at h
  by_cases h2 : bs.getD 0 0 = t
  swap
  · rw [if_neg h2] at h
    exact Except.noConfusion h
  rw [if_pos h2] at h
  by_cases h3 : MAXSTR ≤ decLE ((bs.drop 1).take 8)
  · rw [if_pos h3] at h
    exact Except.noConfusion h
  rw [if_neg h3] at h
  by_cases h4 : (bs.drop 9).length < decLE ((bs.drop 1).take 8)
  · rw [if_pos h4] at h
    exact Except.noConfusion h
  rw [if_neg h4] at h
  rw [Except.ok.injEq, Prod.mk.injEq] at h
  obtain ⟨hv, hr⟩ := h
  have hdr : (bs ++ ex).drop 1 = bs.drop 1 ++ ex :=
    List.drop_append_of_le_length (by omega)
  have htk : (bs.drop 1 ++ ex).take 8 = (bs.drop 1).take 8 :=
    List.take_append_of_le_length (by simp [List.length_drop]; omega)
  have hdr9 : (bs ++ ex).drop 9 = bs.drop 9 ++ ex :=
    List.drop_append_of_le_length (by omega)
  have htkl : (bs.drop 9 ++ ex).take (decLE ((bs.drop 1).take 8)) =
      (bs.drop 9).take (decLE ((bs.drop 1).take 8)) :=
    List.take_append_of_le_length (by omega)
  have hdrl : (bs.drop 9 ++ ex).drop (decLE ((bs.drop 1).take 8)) =
      (bs.drop 9).drop (decLE ((bs.drop 1).take 8)) ++ ex :=
    List.drop_append_of_le_length (by omega)
  rw [if_neg (by simp; omega),
    if_pos (by rw [List.getD_append _ _ _ _ (by omega)]; exact h2),
    hdr, htk, if_neg h3, hdr9,
    if_neg (by rw [List.length_append]; omega),
    htkl, hv, hdrl, hr]

/-! ### Generic composition lemmas over the bind chain of `unpack` -/

theorem bind_take_err {α β : Type} (P : List Nat → Except Err (α × List Nat))
    (f : α × List Nat → Except Err β) (s R : List Nat) (v : α)
    (hA : ∀ t, P (s ++ t) = .ok (v, t))
    (hB : ∀ j, j < s.length → ∃ e, P (s.take j) = .error e)
    (hQ : ∀ j, j < R.length → ∃ e, f (v, R.take j) = .error e)
    (k : Nat) (hk : k < (s ++ R).length) :
    ∃ e, (P ((s ++ R).take k)).bind f = .error e := by
  rcases Nat.lt_or_ge k s.length with h | h
  · rw [List.take_append_of_le_length (Nat.le_of_lt h)]
    obtain ⟨e, he⟩ := hB k h
    exact ⟨e, by rw [he, error_bind]⟩
  · have hkk : k = s.length + (k - s.length) := by omega
    rw [hkk, List.take_append, hA, ok_bind]
    exact hQ (k - s.length) (by rw [List.length_append] at hk; omega)

theorem bind_last_err {α β : Type} (P : List Nat → Except Err (α × List Nat))
    (f : α × List Nat → Except Err β) (s : List Nat)
    (hB : ∀ j, j < s.length → ∃ e, P (s.take j) = .error e)
    (k : Nat) (hk : k < s.length) :
    ∃ e, (P (s.take k)).bind f = .error e := by
  obtain ⟨e, he⟩ := hB k hk
  exact ⟨e, by rw [he, error_bind]⟩

theorem bind_set_err {α β : Type} (P : List Nat → Except Err (α × List Nat))
    (f : α × List Nat → Except Err β) (s R : List Nat) (v : α) (m c : Nat)
    (hA : ∀ t, P (s ++ t) = .ok (v, t))
    (H : f (v, R.set m c) = .error .tagMismatch) :
    (P ((s ++ R).set (s.length + m) c)).bind f = .error .tagMismatch := by
  rw [setAppendLen, hA, ok_bind]
  exact H

theorem bind_ext_ok {α β : Type} (P : List Nat → Except Err (α × List Nat))
    (f : α × List Nat → Except Err β) (bs ex : List Nat) (r : β)
    (hP : ∀ v rest, P bs = .ok (v, rest) → P (bs ++ ex) = .ok (v, rest ++ ex))
    (hf : ∀ v rest, f (v, rest) = .ok r → f (v, rest ++ ex) = .ok r)
    (h : (P bs).bind f = .ok r) : (P (bs ++ ex)).bind f = .ok r := by
  cases hp : P bs with
  | error e =>
    rw [hp, error_bind] at h
    exact Except.noConfusion h
  | ok a =>
    rw [hp, ok_bind] at h
    rw [hP a.1 a.2 (by rw [hp]), ok_bind]
    exact hf a.1 a.2 h

/-! ### Record-level codec lemmas -/

theorem unpack_enc_append (p : Param) (h : wfParam p) (rest : List Nat) :
    unpack (encParam p ++ rest) = .ok p := by
  obtain ⟨hpin, hrp, hext, hseed, hcdh, hcred, hes, hrs, hed, hwire,
    hcc, hty, hu2f, hup, huv⟩ := h
  unfold unpack encParam
  simp only [List.append_assoc, ok_bind,
    unpack_byte_rt,
    unpack_int_rt TAG_EXT p.ext hext,
    unpack_int_rt TAG_SEED p.seed hseed,
    unpack_string_rt TAG_RP_ID p.rp_id hrp.1 (fun b hb => (hrp.2 b hb).1),
    unpack_string_rt TAG_PIN p.pin hpin.1 (fun b hb => (hpin.2 b hb).1),
    unpack_blob_rt TAG_WIRE_DATA p.wire_data hwire.1,
    unpack_blob_rt TAG_RS256 p.rs256 hrs.1,
    unpack_blob_rt TAG_ES256 p.es256 hes.1,
    unpack_blob_rt TAG_EDDSA p.eddsa hed.1,
    unpack_blob_rt TAG_CRED p.cred hcred.1,
    unpack_blob_rt TAG_CDH p.cdh hcdh.1]

theorem unpack_enc (p : Param) (h : wfParam p) : unpack (encParam p) = .ok p := by
  have he := unpack_enc_append p h []
  rwa [List.append_nil] at he

theorem enc_take_err (p : Param) (h : wfParam p) (k : Nat)
    (hk : k < (encParam p).length) :
    ∃ e, unpack ((encParam p).take k) = .error e := by
  obtain ⟨hpin, hrp, hext, hseed, hcdh, hcred, hes, hrs, hed, hwire,
    _, _, _, _, _⟩ := h
  unfold encParam at hk ⊢
  unfold unpack
  refine bind_take_err _ _ _ _ _ (unpack_byte_rt TAG_UV p.uv)
    (fun j hj => ⟨.truncated, unpack_byte_pre TAG_UV p.uv j hj⟩)
    (fun k1 hk1 => ?_) k hk
  refine bind_take_err _ _ _ _ _ (unpack_byte_rt TAG_UP p.up)
    (fun j hj => ⟨.truncated, unpack_byte_pre TAG_UP p.up j hj⟩)
    (fun k2 hk2 => ?_) k1 hk1
  refine bind_take_err _ _ _ _ _ (unpack_byte_rt TAG_U2F p.u2f)
    (fun j hj => ⟨.truncated, unpack_byte_pre TAG_U2F p.u2f j hj⟩)
    (fun k3 hk3 => ?_) k2 hk2
  refine bind_take_err _ _ _ _ _ (unpack_byte_rt TAG_TYPE p.type)
    (fun j hj => ⟨.truncated, unpack_byte_pre TAG_TYPE p.type j hj⟩)
    (fun k4 hk4 => ?_) k3 hk3
  refine bind_take_err _ _ _ _ _ (unpack_byte_rt TAG_CRED_COUNT p.cred_count)
    (fun j hj => ⟨.truncated, unpack_byte_pre TAG_CRED_COUNT p.cred_count j hj⟩)
    (fun k5 hk5 => ?_) k4 hk4
  refine bind_take_err _ _ _ _ _ (unpack_int_rt TAG_EXT p.ext hext)
    (fun j hj => ⟨.truncated, unpack_int_pre TAG_EXT p.ext j hj⟩)
    (fun k6 hk6 => ?_) k5 hk5
  refine bind_take_err _ _ _ _ _ (unpack_int_rt TAG_SEED p.seed hseed)
    (fun j hj => ⟨.truncated, unpack_int_pre TAG_SEED p.seed j hj⟩)
    (fun k7 hk7 => ?_) k6 hk6
  refine bind_take_err _ _ _ _ _
    (unpack_string_rt TAG_RP_ID p.rp_id hrp.1 (fun b hb => (hrp.2 b hb).1))
    (fun j hj => ⟨.truncated, unpack_string_pre TAG_RP_ID p.rp_id hrp.1 j hj⟩)
    (fun k8 hk8 => ?_) k7 hk7
  refine bind_take_err _ _ _ _ _
    (unpack_string_rt TAG_PIN p.pin hpin.1 (fun b hb => (hpin.2 b hb).1))
    (fun j hj => ⟨.truncated, unpack_string_pre TAG_PIN p.pin hpin.1 j hj⟩)
    (fun k9 hk9 => ?_) k8 hk8
  refine bind_take_err _ _ _ _ _ (unpack_blob_rt TAG_WIRE_DATA p.wire_data hwire.1)
    (fun j hj => ⟨.truncated, unpack_blob_pre TAG_WIRE_DATA p.wire_data hwire.1 j hj⟩)
    (fun k10 hk10 => ?_) k9 hk9
  refine bind_take_err _ _ _ _ _ (unpack_blob_rt TAG_RS256 p.rs256 hrs.1)
    (fun j hj => ⟨.truncated, unpack_blob_pre TAG_RS256 p.rs256 hrs.1 j hj⟩)
    (fun k11 hk11 => ?_) k10 hk10
  refine bind_take_err _ _ _ _ _ (unpack_blob_rt TAG_ES256 p.es256 hes.1)
    (fun j hj => ⟨.truncated, unpack_blob_pre TAG_ES256 p.es256 hes.1 j hj⟩)
    (fun k12 hk12 => ?_) k11 hk11
  refine bind_take_err _ _ _ _ _ (unpack_blob_rt TAG_EDDSA p.eddsa hed.1)
    (fun j hj => ⟨.truncated, unpack_blob_pre TAG_EDDSA p.eddsa hed.1 j hj⟩)
    (fun k13 hk13 => ?_) k12 hk12
  refine bind_take_err _ _ _ _ _ (unpack_blob_rt TAG_CRED p.cred hcred.1)
    (fun j hj => ⟨.truncated, unpack_blob_pre TAG_CRED p.cred hcred.1 j hj⟩)
    (fun k14 hk14 => ?_) k13 hk13
  exact bind_last_err _ _ _
    (fun j hj => ⟨.truncated, unpack_blob_pre TAG_CDH p.cdh hcdh.1 j hj⟩)
    k14 hk14

theorem unpack_trailing (bs : List Nat) (r : Param) (h : unpack bs = .ok r)
    (ex : List Nat) : unpack (bs ++ ex) = .ok r := by
  unfold unpack at h ⊢
  refine bind_ext_ok _ _ bs ex r (fun v rest hh => unpack_byte_ext TAG_UV bs ex v rest hh) ?_ h
  intro v1 rest1 h1
  refine bind_ext_ok _ _ rest1 ex r (fun v rest hh => unpack_byte_ext TAG_UP rest1 ex v rest hh) ?_ h1
  intro v2 rest2 h2
  refine bind_ext_ok _ _ rest2 ex r (fun v rest hh => unpack_byte_ext TAG_U2F rest2 ex v rest hh) ?_ h2
  intro v3 rest3 h3
  refine bind_ext_ok _ _ rest3 ex r (fun v rest hh => unpack_byte_ext TAG_TYPE rest3 ex v rest hh) ?_ h3
  intro v4 rest4 h4
  refine bind_ext_ok _ _ rest4 ex r (fun v rest hh => unpack_byte_ext TAG_CRED_COUNT rest4 ex v rest hh) ?_ h4
  intro v5 rest5 h5
  refine bind_ext_ok _ _ rest5 ex r (fun v rest hh => unpack_int_ext TAG_EXT rest5 ex v rest hh) ?_ h5
  intro v6 rest6 h6
  refine bind_ext_ok _ _ rest6 ex r (fun v rest hh => unpack_int_ext TAG_SEED rest6 ex v rest hh) ?_ h6
  intro v7 rest7 h7
  refine bind_ext_ok _ _ rest7 ex r (fun v rest hh => unpack_string_ext TAG_RP_ID rest7 ex v rest hh) ?_ h7
  intro v8 rest8 h8
  refine bind_ext_ok _ _ rest8 ex r (fun v rest hh => unpack_string_ext TAG_PIN rest8 ex v rest hh) ?_ h8
  intro v9 rest9 h9
  refine bind_ext_ok _ _ rest9 ex r (fun v rest hh => unpack_blob_ext TAG_WIRE_DATA rest9 ex v rest hh) ?_ h9
  intro v10 rest10 h10
  refine bind_ext_ok _ _ rest10 ex r (fun v rest hh => unpack_blob_ext TAG_RS256 rest10 ex v rest hh) ?_ h10
  intro v11 rest11 h11
  refine bind_ext_ok _ _ rest11 ex r (fun v rest hh => unpack_blob_ext TAG_ES256 rest11 ex v rest hh) ?_ h11
  intro v12 rest12 h12
  refine bind_ext_ok _ _ rest12 ex r (fun v rest hh => unpack_blob_ext TAG_EDDSA rest12 ex v rest hh) ?_ h12
  intro v13 rest13 h13
  refine bind_ext_ok _ _ rest13 ex r (fun v rest hh => unpack_blob_ext TAG_CRED rest13 ex v rest hh) ?_ h13
  intro v14 rest14 h14
  refine bind_ext_ok _ _ rest14 ex r (fun v rest hh => unpack_blob_ext TAG_CDH rest14 ex v rest hh) ?_ h14
  intro v15 rest15 h15
  exact h15


theorem bind_tc_byte {α : Type} (t c : Nat) (bsf : List Nat)
    (f : Nat × List Nat → Except Err α)
    (hlen : 2 ≤ bsf.length) (hgd : bsf.getD 0 0 = c) (hc : c ≠ t) :
    (unpack_byte t bsf).bind f = .error .tagMismatch := by
  rw [unpack_byte_tc t c bsf hlen hgd hc, error_bind]

theorem bind_tc_int {α : Type} (t c : Nat) (bsf : List Nat)
    (f : Nat × List Nat → Except Err α)
    (hlen : 5 ≤ bsf.length) (hgd : bsf.getD 0 0 = c) (hc : c ≠ t) :
    (unpack_int t bsf).bind f = .error .tagMismatch := by
  rw [unpack_int_tc t c bsf hlen hgd hc, error_bind]

theorem bind_tc_string {α : Type} (t c : Nat) (bsf : List Nat)
    (f : List Nat × List Nat → Except Err α)
    (hlen : 9 ≤ bsf.length) (hgd : bsf.getD 0 0 = c) (hc : c ≠ t) :
    (unpack_string t bsf).bind f = .error .tagMismatch := by
  rw [unpack_string_tc t c bsf hlen hgd hc, error_bind]

theorem bind_tc_blob {α : Type} (t c : Nat) (bsf : List Nat)
    (f : List Nat × List Nat → Except Err α)
    (hlen : 9 ≤ bsf.length) (hgd : bsf.getD 0 0 = c) (hc : c ≠ t) :
    (unpack_blob t bsf).bind f = .error .tagMismatch := by
  rw [unpack_blob_tc t c bsf hlen hgd hc, error_bind]

theorem enc_set_tag (p : Param) (h : wfParam p) (i : Nat) (hi : i < 15) (c : Nat)
    (hc : c ≠ tagsList.getD i 0) :
    unpack ((encParam p).set ((tagOffsets p).getD i 0) c) = .error .tagMismatch := by
  obtain ⟨hpin, hrp, hext, hseed, hcdh, hcred, hes, hrs, hed, hwire,
    _, _, _, _, _⟩ := h
  unfold unpack encParam
  interval_cases i
  · rw [show (tagOffsets p).getD 0 0 = 0 from rfl]
    exact bind_tc_byte TAG_UV c _ _
      (by simp only [List.length_set, List.length_append, List.length_cons, List.length_nil, pack_byte, pack_int, pack_string, pack_blob, leBytes_length]; omega)
      (getDSetZero _ _ _ (by simp [pack_byte, pack_int, pack_string, pack_blob])) hc
  · rw [show (tagOffsets p).getD 1 0 =
      (pack_byte TAG_UV p.uv).length + (0) from by
      rw [show (tagOffsets p).getD 1 0 = 2 from rfl]
      simp only [pack_byte, pack_int, pack_string, pack_blob,
        List.length_append, List.length_cons, List.length_nil, leBytes_length]
      try omega]
    refine bind_set_err _ _ _ _ _ _ _ (unpack_byte_rt TAG_UV p.uv) ?_
    exact bind_tc_byte TAG_UP c _ _
      (by simp only [List.length_set, List.length_append, List.length_cons, List.length_nil, pack_byte, pack_int, pack_string, pack_blob, leBytes_length]; omega)
      (getDSetZero _ _ _ (by simp [pack_byte, pack_int, pack_string, pack_blob])) hc
  · rw [show (tagOffsets p).getD 2 0 =
      (pack_byte TAG_UV p.uv).length + ((pack_byte TAG_UP p.up).length + (0)) from by
      rw [show (tagOffsets p).getD 2 0 = 4 from rfl]
      simp only [pack_byte, pack_int, pack_string, pack_blob,
        List.length_append, List.length_cons, List.length_nil, leBytes_length]
      try omega]
    refine bind_set_err _ _ _ _ _ _ _ (unpack_byte_rt TAG_UV p.uv) ?_
    refine bind_set_err _ _ _ _ _ _ _ (unpack_byte_rt TAG_UP p.up) ?_
    exact bind_tc_byte TAG_U2F c _ _
      (by simp only [List.length_set, List.length_append, List.length_cons, List.length_nil, pack_byte, pack_int, pack_string, pack_blob, leBytes_length]; omega)
      (getDSetZero _ _ _ (by simp [pack_byte, pack_int, pack_string, pack_blob])) hc
  · rw [show (tagOffsets p).getD 3 0 =
      (pack_byte TAG_UV p.uv).length + ((pack_byte TAG_UP p.up).length + ((pack_byte TAG_U2F p.u2f).length + (0))) from by
      rw [show (tagOffsets p).getD 3 0 = 6 from rfl]
      simp only [pack_byte, pack_int, pack_string, pack_blob,
        List.length_append, List.length_cons, List.length_nil, leBytes_length]
      try omega]
    refine bind_set_err _ _ _ _ _ _ _ (unpack_byte_rt TAG_UV p.uv) ?_
    refine bind_set_err _ _ _ _ _ _ _ (unpack_byte_rt TAG_UP p.up) ?_
    refine bind_set_err _ _ _ _ _ _ _ (unpack_byte_rt TAG_U2F p.u2f) ?_
    exact bind_tc_byte TAG_TYPE c _ _
      (by simp only [List.length_set, List.length_append, List.length_cons, List.length_nil, pack_byte, pack_int, pack_string, pack_blob, leBytes_length]; omega)
      (getDSetZero _ _ _ (by simp [pack_byte, pack_int, pack_string, pack_blob])) hc
  · rw [show (tagOffsets p).getD 4 0 =
      (pack_byte TAG_UV p.uv).length + ((pack_byte TAG_UP p.up).length + ((pack_byte TAG_U2F p.u2f).length + ((pack_byte TAG_TYPE p.type).length + (0)))) from by
      rw [show (tagOffsets p).getD 4 0 = 8 from rfl]
      simp only [pack_byte, pack_int, pack_string, pack_blob,
        List.length_append, List.length_cons, List.length_nil, leBytes_length]
      try omega]
    refine bind_set_err _ _ _ _ _ _ _ (unpack_byte_rt TAG_UV p.uv) ?_
    refine bind_set_err _ _ _ _ _ _ _ (unpack_byte_rt TAG_UP p.up) ?_
    refine bind_set_err _ _ _ _ _ _ _ (unpack_byte_rt TAG_U2F p.u2f) ?_
    refine bind_set_err _ _ _ _ _ _ _ (unpack_byte_rt TAG_TYPE p.type) ?_
    exact bind_tc_byte TAG_CRED_COUNT c _ _
      (by simp only [List.length_set, List.length_append, List.length_cons, List.length_nil, pack_byte, pack_int, pack_string, pack_blob, leBytes_length]; omega)
      (getDSetZero _ _ _ (by simp [pack_byte, pack_int, pack_string, pack_blob])) hc
  · rw [show (tagOffsets p).getD 5 0 =
      (pack_byte TAG_UV p.uv).length + ((pack_byte TAG_UP p.up).length + ((pack_byte TAG_U2F p.u2f).length + ((pack_byte TAG_TYPE p.type).length + ((pack_byte TAG_CRED_COUNT p.cred_count).length + (0))))) from by
      rw [show (tagOffsets p).getD 5 0 = 10 from rfl]
      simp only [pack_byte, pack_int, pack_string, pack_blob,
        List.length_append, List.length_cons, List.length_nil, leBytes_length]
      try omega]
    refine bind_set_err _ _ _ _ _ _ _ (unpack_byte_rt TAG_UV p.uv) ?_
    refine bind_set_err _ _ _ _ _ _ _ (unpack_byte_rt TAG_UP p.up) ?_
    refine bind_set_err _ _ _ _ _ _ _ (unpack_byte_rt TAG_U2F p.u2f) ?_
    refine bind_set_err _ _ _ _ _ _ _ (unpack_byte_rt TAG_TYPE p.type) ?_
    refine bind_set_err _ _ _ _ _ _ _ (unpack_byte_rt TAG_CRED_COUNT p.cred_count) ?_
    exact bind_tc_int TAG_EXT c _ _
      (by simp only [List.length_set, List.length_append, List.length_cons, List.length_nil, pack_byte, pack_int, pack_string, pack_blob, leBytes_length]; omega)
      (getDSetZero _ _ _ (by simp [pack_byte, pack_int, pack_string, pack_blob])) hc
  · rw [show (tagOffsets p).getD 6 0 =
      (pack_byte TAG_UV p.uv).length + ((pack_byte TAG_UP p.up).length + ((pack_byte TAG_U2F p.u2f).length + ((pack_byte TAG_TYPE p.type).length + ((pack_byte TAG_CRED_COUNT p.cred_count).length + ((pack_int TAG_EXT p.ext).length + (0)))))) from by
      rw [show (tagOffsets p).getD 6 0 = 15 from rfl]
      simp only [pack_byte, pack_int, pack_string, pack_blob,
        List.length_append, List.length_cons, List.length_nil, leBytes_length]
      try omega]
    refine bind_set_err _ _ _ _ _ _ _ (unpack_byte_rt TAG_UV p.uv) ?_
    refine bind_set_err _ _ _ _ _ _ _ (unpack_byte_rt TAG_UP p.up) ?_
    refine bind_set_err _ _ _ _ _ _ _ (unpack_byte_rt TAG_U2F p.u2f) ?_
    refine bind_set_err _ _ _ _ _ _ _ (unpack_byte_rt TAG_TYPE p.type) ?_
    refine bind_set_err _ _ _ _ _ _ _ (unpack_byte_rt TAG_CRED_COUNT p.cred_count) ?_
    refine bind_set_err _ _ _ _ _ _ _ (unpack_int_rt TAG_EXT p.ext hext) ?_
    exact bind_tc_int TAG_SEED c _ _
      (by simp only [List.length_set, List.length_append, List.length_cons, List.length_nil, pack_byte, pack_int, pack_string, pack_blob, leBytes_length]; omega)
      (getDSetZero _ _ _ (by simp [pack_byte, pack_int, pack_string, pack_blob])) hc
  · rw [show (tagOffsets p).getD 7 0 =
      (pack_byte TAG_UV p.uv).length + ((pack_byte TAG_UP p.up).length + ((pack_byte TAG_U2F p.u2f).length + ((pack_byte TAG_TYPE p.type).length + ((pack_byte TAG_CRED_COUNT p.cred_count).length + ((pack_int TAG_EXT p.ext).length + ((pack_int TAG_SEED p.seed).length + (0))))))) from by
      rw [show (tagOffsets p).getD 7 0 = 20 from rfl]
      simp only [pack_byte, pack_int, pack_string, pack_blob,
        List.length_append, List.length_cons, List.length_nil, leBytes_length]
      try omega]
    refine bind_set_err _ _ _ _ _ _ _ (unpack_byte_rt TAG_UV p.uv) ?_
    refine bind_set_err _ _ _ _ _ _ _ (unpack_byte_rt TAG_UP p.up) ?_
    refine bind_set_err _ _ _ _ _ _ _ (unpack_byte_rt TAG_U2F p.u2f) ?_
    refine bind_set_err _ _ _ _ _ _ _ (unpack_byte_rt TAG_TYPE p.type) ?_
    refine bind_set_err _ _ _ _ _ _ _ (unpack_byte_rt TAG_CRED_COUNT p.cred_count) ?_
    refine bind_set_err _ _ _ _ _ _ _ (unpack_int_rt TAG_EXT p.ext hext) ?_
    refine bind_set_err _ _ _ _ _ _ _ (unpack_int_rt TAG_SEED p.seed hseed) ?_
    exact bind_tc_string TAG_RP_ID c _ _
      (by simp only [List.length_set, List.length_append, List.length_cons, List.length_nil, pack_byte, pack_int, pack_string, pack_blob, leBytes_length]; omega)
      (getDSetZero _ _ _ (by simp [pack_byte, pack_int, pack_string, pack_blob])) hc
  · rw [show (tagOffsets p).getD 8 0 =
      (pack_byte TAG_UV p.uv).length + ((pack_byte TAG_UP p.up).length + ((pack_byte TAG_U2F p.u2f).length + ((pack_byte TAG_TYPE p.type).length + ((pack_byte TAG_CRED_COUNT p.cred_count).length + ((pack_int TAG_EXT p.ext).length + ((pack_int TAG_SEED p.seed).length + ((pack_string TAG_RP_ID p.rp_id).length + (0)))))))) from by
      rw [show (tagOffsets p).getD 8 0 = 29 + p.rp_id.length from rfl]
      simp only [pack_byte, pack_int, pack_string, pack_blob,
        List.length_append, List.length_cons, List.length_nil, leBytes_length]
      try omega]
    refine bind_set_err _ _ _ _ _ _ _ (unpack_byte_rt TAG_UV p.uv) ?_
    refine bind_set_err _ _ _ _ _ _ _ (unpack_byte_rt TAG_UP p.up) ?_
    refine bind_set_err _ _ _ _ _ _ _ (unpack_byte_rt TAG_U2F p.u2f) ?_
    refine bind_set_err _ _ _ _ _ _ _ (unpack_byte_rt TAG_TYPE p.type) ?_
    refine bind_set_err _ _ _ _ _ _ _ (unpack_byte_rt TAG_CRED_COUNT p.cred_count) ?_
    refine bind_set_err _ _ _ _ _ _ _ (unpack_int_rt TAG_EXT p.ext hext) ?_
    refine bind_set_err _ _ _ _ _ _ _ (unpack_int_rt TAG_SEED p.seed hseed) ?_
    refine bind_set_err _ _ _ _ _ _ _ (unpack_string_rt TAG_RP_ID p.rp_id hrp.1 (fun b hb => (hrp.2 b hb).1)) ?_
    exact bind_tc_string TAG_PIN c _ _
      (by simp only [List.length_set, List.length_append, List.length_cons, List.length_nil, pack_byte, pack_int, pack_string, pack_blob, leBytes_length]; omega)
      (getDSetZero _ _ _ (by simp [pack_byte, pack_int, pack_string, pack_blob])) hc
  · rw [show (tagOffsets p).getD 9 0 =
      (pack_byte TAG_UV p.uv).length + ((pack_byte TAG_UP p.up).length + ((pack_byte TAG_U2F p.u2f).length + ((pack_byte TAG_TYPE p.type).length + ((pack_byte TAG_CRED_COUNT p.cred_count).length + ((pack_int TAG_EXT p.ext).length + ((pack_int TAG_SEED p.seed).length + ((pack_string TAG_RP_ID p.rp_id).length + ((pack_string TAG_PIN p.pin).length + (0))))))))) from by
      rw [show (tagOffsets p).getD 9 0 = 38 + p.rp_id.length + p.pin.length from rfl]
      simp only [pack_byte, pack_int, pack_string, pack_blob,
        List.length_append, List.length_cons, List.length_nil, leBytes_length]
      try omega]
    refine bind_set_err _ _ _ _ _ _ _ (unpack_byte_rt TAG_UV p.uv) ?_
    refine bind_set_err _ _ _ _ _ _ _ (unpack_byte_rt TAG_UP p.up) ?_
    refine bind_set_err _ _ _ _ _ _ _ (unpack_byte_rt TAG_U2F p.u2f) ?_
    refine bind_set_err _ _ _ _ _ _ _ (unpack_byte_rt TAG_TYPE p.type) ?_
    refine bind_set_err _ _ _ _ _ _ _ (unpack_byte_rt TAG_CRED_COUNT p.cred_count) ?_
    refine bind_set_err _ _ _ _ _ _ _ (unpack_int_rt TAG_EXT p.ext hext) ?_
    refine bind_set_err _ _ _ _ _ _ _ (unpack_int_rt TAG_SEED p.seed hseed) ?_
    refine bind_set_err _ _ _ _ _ _ _ (unpack_string_rt TAG_RP_ID p.rp_id hrp.1 (fun b hb => (hrp.2 b hb).1)) ?_
    refine bind_set_err _ _ _ _ _ _ _ (unpack_string_rt TAG_PIN p.pin hpin.1 (fun b hb => (hpin.2 b hb).1)) ?_
    exact bind_tc_blob TAG_WIRE_DATA c _ _
      (by simp only [List.length_set, List.length_append, List.length_cons, List.length_nil, pack_byte, pack_int, pack_string, pack_blob, leBytes_length]; omega)
      (getDSetZero _ _ _ (by simp [pack_byte, pack_int, pack_string, pack_blob])) hc
  · rw [show (tagOffsets p).getD 10 0 =
      (pack_byte TAG_UV p.uv).length + ((pack_byte TAG_UP p.up).length + ((pack_byte TAG_U2F p.u2f).length + ((pack_byte TAG_TYPE p.type).length + ((pack_byte TAG_CRED_COUNT p.cred_count).length + ((pack_int TAG_EXT p.ext).length + ((pack_int TAG_SEED p.seed).length + ((pack_string TAG_RP_ID p.rp_id).length + ((pack_string TAG_PIN p.pin).length + ((pack_blob TAG_WIRE_DATA p.wire_data).length + (0)))))))))) from by
      rw [show (tagOffsets p).getD 10 0 = 47 + p.rp_id.length + p.pin.length + p.wire_data.length from rfl]
      simp only [pack_byte, pack_int, pack_string, pack_blob,
        List.length_append, List.length_cons, List.length_nil, leBytes_length]
      try omega]
    refine bind_set_err _ _ _ _ _ _ _ (unpack_byte_rt TAG_UV p.uv) ?_
    refine bind_set_err _ _ _ _ _ _ _ (unpack_byte_rt TAG_UP p.up) ?_
    refine bind_set_err _ _ _ _ _ _ _ (unpack_byte_rt TAG_U2F p.u2f) ?_
    refine bind_set_err _ _ _ _ _ _ _ (unpack_byte_rt TAG_TYPE p.type) ?_
    refine bind_set_err _ _ _ _ _ _ _ (unpack_byte_rt TAG_CRED_COUNT p.cred_count) ?_
    refine bind_set_err _ _ _ _ _ _ _ (unpack_int_rt TAG_EXT p.ext hext) ?_
    refine bind_set_err _ _ _ _ _ _ _ (unpack_int_rt TAG_SEED p.seed hseed) ?_
    refine bind_set_err _ _ _ _ _ _ _ (unpack_string_rt TAG_RP_ID p.rp_id hrp.1 (fun b hb => (hrp.2 b hb).1)) ?_
    refine bind_set_err _ _ _ _ _ _ _ (unpack_string_rt TAG_PIN p.pin hpin.1 (fun b hb => (hpin.2 b hb).1)) ?_
    refine bind_set_err _ _ _ _ _ _ _ (unpack_blob_rt TAG_WIRE_DATA p.wire_data hwire.1) ?_
    exact bind_tc_blob TAG_RS256 c _ _
      (by simp only [List.length_set, List.length_append, List.length_cons, List.length_nil, pack_byte, pack_int, pack_string, pack_blob, leBytes_length]; omega)
      (getDSetZero _ _ _ (by simp [pack_byte, pack_int, pack_string, pack_blob])) hc
  · rw [show (tagOffsets p).getD 11 0 =
      (pack_byte TAG_UV p.uv).length + ((pack_byte TAG_UP p.up).length + ((pack_byte TAG_U2F p.u2f).length + ((pack_byte TAG_TYPE p.type).length + ((pack_byte TAG_CRED_COUNT p.cred_count).length + ((pack_int TAG_EXT p.ext).length + ((pack_int TAG_SEED p.seed).length + ((pack_string TAG_RP_ID p.rp_id).length + ((pack_string TAG_PIN p.pin).length + ((pack_blob TAG_WIRE_DATA p.wire_data).length + ((pack_blob TAG_RS256 p.rs256).length + (0))))))))))) from by
      rw [show (tagOffsets p).getD 11 0 = 56 + p.rp_id.length + p.pin.length + p.wire_data.length + p.rs256.length from rfl]
      simp only [pack_byte, pack_int, pack_string, pack_blob,
        List.length_append, List.length_cons, List.length_nil, leBytes_length]
      try omega]
    refine bind_set_err _ _ _ _ _ _ _ (unpack_byte_rt TAG_UV p.uv) ?_
    refine bind_set_err _ _ _ _ _ _ _ (unpack_byte_rt TAG_UP p.up) ?_
    refine bind_set_err _ _ _ _ _ _ _ (unpack_byte_rt TAG_U2F p.u2f) ?_
    refine bind_set_err _ _ _ _ _ _ _ (unpack_byte_rt TAG_TYPE p.type) ?_
    refine bind_set_err _ _ _ _ _ _ _ (unpack_byte_rt TAG_CRED_COUNT p.cred_count) ?_
    refine bind_set_err _ _ _ _ _ _ _ (unpack_int_rt TAG_EXT p.ext hext) ?_
    refine bind_set_err _ _ _ _ _ _ _ (unpack_int_rt TAG_SEED p.seed hseed) ?_
    refine bind_set_err _ _ _ _ _ _ _ (unpack_string_rt TAG_RP_ID p.rp_id hrp.1 (fun b hb => (hrp.2 b hb).1)) ?_
    refine bind_set_err _ _ _ _ _ _ _ (unpack_string_rt TAG_PIN p.pin hpin.1 (fun b hb => (hpin.2 b hb).1)) ?_
    refine bind_set_err _ _ _ _ _ _ _ (unpack_blob_rt TAG_WIRE_DATA p.wire_data hwire.1) ?_
    refine bind_set_err _ _ _ _ _ _ _ (unpack_blob_rt TAG_RS256 p.rs256 hrs.1) ?_
    exact bind_tc_blob TAG_ES256 c _ _
      (by simp only [List.length_set, List.length_append, List.length_cons, List.length_nil, pack_byte, pack_int, pack_string, pack_blob, leBytes_length]; omega)
      (getDSetZero _ _ _ (by simp [pack_byte, pack_int, pack_string, pack_blob])) hc
  · rw [show (tagOffsets p).getD 12 0 =
      (pack_byte TAG_UV p.uv).length + ((pack_byte TAG_UP p.up).length + ((pack_byte TAG_U2F p.u2f).length + ((pack_byte TAG_TYPE p.type).length + ((pack_byte TAG_CRED_COUNT p.cred_count).length + ((pack_int TAG_EXT p.ext).length + ((pack_int TAG_SEED p.seed).length + ((pack_string TAG_RP_ID p.rp_id).length + ((pack_string TAG_PIN p.pin).length + ((pack_blob TAG_WIRE_DATA p.wire_data).length + ((pack_blob TAG_RS256 p.rs256).length + ((pack_blob TAG_ES256 p.es256).length + (0)))))))))))) from by
      rw [show (tagOffsets p).getD 12 0 = 65 + p.rp_id.length + p.pin.length + p.wire_data.length + p.rs256.length + p.es256.length from rfl]
      simp only [pack_byte, pack_int, pack_string, pack_blob,
        List.length_append, List.length_cons, List.length_nil, leBytes_length]
      try omega]
    refine bind_set_err _ _ _ _ _ _ _ (unpack_byte_rt TAG_UV p.uv) ?_
    refine bind_set_err _ _ _ _ _ _ _ (unpack_byte_rt TAG_UP p.up) ?_
    refine bind_set_err _ _ _ _ _ _ _ (unpack_byte_rt TAG_U2F p.u2f) ?_
    refine bind_set_err _ _ _ _ _ _ _ (unpack_byte_rt TAG_TYPE p.type) ?_
    refine bind_set_err _ _ _ _ _ _ _ (unpack_byte_rt TAG_CRED_COUNT p.cred_count) ?_
    refine bind_set_err _ _ _ _ _ _ _ (unpack_int_rt TAG_EXT p.ext hext) ?_
    refine bind_set_err _ _ _ _ _ _ _ (unpack_int_rt TAG_SEED p.seed hseed) ?_
    refine bind_set_err _ _ _ _ _ _ _ (unpack_string_rt TAG_RP_ID p.rp_id hrp.1 (fun b hb => (hrp.2 b hb).1)) ?_
    refine bind_set_err _ _ _ _ _ _ _ (unpack_string_rt TAG_PIN p.pin hpin.1 (fun b hb => (hpin.2 b hb).1)) ?_
    refine bind_set_err _ _ _ _ _ _ _ (unpack_blob_rt TAG_WIRE_DATA p.wire_data hwire.1) ?_
    refine bind_set_err _ _ _ _ _ _ _ (unpack_blob_rt TAG_RS256 p.rs256 hrs.1) ?_
    refine bind_set_err _ _ _ _ _ _ _ (unpack_blob_rt TAG_ES256 p.es256 hes.1) ?_
    exact bind_tc_blob TAG_EDDSA c _ _
      (by simp only [List.length_set, List.length_append, List.length_cons, List.length_nil, pack_byte, pack_int, pack_string, pack_blob, leBytes_length]; omega)
      (getDSetZero _ _ _ (by simp [pack_byte, pack_int, pack_string, pack_blob])) hc
  · rw [show (tagOffsets p).getD 13 0 =
      (pack_byte TAG_UV p.uv).length + ((pack_byte TAG_UP p.up).length + ((pack_byte TAG_U2F p.u2f).length + ((pack_byte TAG_TYPE p.type).length + ((pack_byte TAG_CRED_COUNT p.cred_count).length + ((pack_int TAG_EXT p.ext).length + ((pack_int TAG_SEED p.seed).length + ((pack_string TAG_RP_ID p.rp_id).length + ((pack_string TAG_PIN p.pin).length + ((pack_blob TAG_WIRE_DATA p.wire_data).length + ((pack_blob TAG_RS256 p.rs256).length + ((pack_blob TAG_ES256 p.es256).length + ((pack_blob TAG_EDDSA p.eddsa).length + (0))))))))))))) from by
      rw [show (tagOffsets p).getD 13 0 = 74 + p.rp_id.length + p.pin.length + p.wire_data.length + p.rs256.length + p.es256.length + p.eddsa.length from rfl]
      simp only [pack_byte, pack_int, pack_string, pack_blob,
        List.length_append, List.length_cons, List.length_nil, leBytes_length]
      try omega]
    refine bind_set_err _ _ _ _ _ _ _ (unpack_byte_rt TAG_UV p.uv) ?_
    refine bind_set_err _ _ _ _ _ _ _ (unpack_byte_rt TAG_UP p.up) ?_
    refine bind_set_err _ _ _ _ _ _ _ (unpack_byte_rt TAG_U2F p.u2f) ?_
    refine bind_set_err _ _ _ _ _ _ _ (unpack_byte_rt TAG_TYPE p.type) ?_
    refine bind_set_err _ _ _ _ _ _ _ (unpack_byte_rt TAG_CRED_COUNT p.cred_count) ?_
    refine bind_set_err _ _ _ _ _ _ _ (unpack_int_rt TAG_EXT p.ext hext) ?_
    refine bind_set_err _ _ _ _ _ _ _ (unpack_int_rt TAG_SEED p.seed hseed) ?_
    refine bind_set_err _ _ _ _ _ _ _ (unpack_string_rt TAG_RP_ID p.rp_id hrp.1 (fun b hb => (hrp.2 b hb).1)) ?_
    refine bind_set_err _ _ _ _ _ _ _ (unpack_string_rt TAG_PIN p.pin hpin.1 (fun b hb => (hpin.2 b hb).1)) ?_
    refine bind_set_err _ _ _ _ _ _ _ (unpack_blob_rt TAG_WIRE_DATA p.wire_data hwire.1) ?_
    refine bind_set_err _ _ _ _ _ _ _ (unpack_blob_rt TAG_RS256 p.rs256 hrs.1) ?_
    refine bind_set_err _ _ _ _ _ _ _ (unpack_blob_rt TAG_ES256 p.es256 hes.1) ?_
    refine bind_set_err _ _ _ _ _ _ _ (unpack_blob_rt TAG_EDDSA p.eddsa hed.1) ?_
    exact bind_tc_blob TAG_CRED c _ _
      (by simp only [List.length_set, List.length_append, List.length_cons, List.length_nil, pack_byte, pack_int, pack_string, pack_blob, leBytes_length]; omega)
      (getDSetZero _ _ _ (by simp [pack_byte, pack_int, pack_string, pack_blob])) hc
  · rw [show (tagOffsets p).getD 14 0 =
      (pack_byte TAG_UV p.uv).length + ((pack_byte TAG_UP p.up).length + ((pack_byte TAG_U2F p.u2f).length + ((pack_byte TAG_TYPE p.type).length + ((pack_byte TAG_CRED_COUNT p.cred_count).length + ((pack_int TAG_EXT p.ext).length + ((pack_int TAG_SEED p.seed).length + ((pack_string TAG_RP_ID p.rp_id).length + ((pack_string TAG_PIN p.pin).length + ((pack_blob TAG_WIRE_DATA p.wire_data).length + ((pack_blob TAG_RS256 p.rs256).length + ((pack_blob TAG_ES256 p.es256).length + ((pack_blob TAG_EDDSA p.eddsa).length + ((pack_blob TAG_CRED p.cred).length + (0)))))))))))))) from by
      rw [show (tagOffsets p).getD 14 0 = 83 + p.rp_id.length + p.pin.length + p.wire_data.length + p.rs256.length + p.es256.length + p.eddsa.length + p.cred.length from rfl]
      simp only [pack_byte, pack_int, pack_string, pack_blob,
        List.length_append, List.length_cons, List.length_nil, leBytes_length]
      try omega]
    refine bind_set_err _ _ _ _ _ _ _ (unpack_byte_rt TAG_UV p.uv) ?_
    refine bind_set_err _ _ _ _ _ _ _ (unpack_byte_rt TAG_UP p.up) ?_
    refine bind_set_err _ _ _ _ _ _ _ (unpack_byte_rt TAG_U2F p.u2f) ?_
    refine bind_set_err _ _ _ _ _ _ _ (unpack_byte_rt TAG_TYPE p.type) ?_
    refine bind_set_err _ _ _ _ _ _ _ (unpack_byte_rt TAG_CRED_COUNT p.cred_count) ?_
    refine bind_set_err _ _ _ _ _ _ _ (unpack_int_rt TAG_EXT p.ext hext) ?_
    refine bind_set_err _ _ _ _ _ _ _ (unpack_int_rt TAG_SEED p.seed hseed) ?_
    refine bind_set_err _ _ _ _ _ _ _ (unpack_string_rt TAG_RP_ID p.rp_id hrp.1 (fun b hb => (hrp.2 b hb).1)) ?_
    refine bind_set_err _ _ _ _ _ _ _ (unpack_string_rt TAG_PIN p.pin hpin.1 (fun b hb => (hpin.2 b hb).1)) ?_
    refine bind_set_err _ _ _ _ _ _ _ (unpack_blob_rt TAG_WIRE_DATA p.wire_data hwire.1) ?_
    refine bind_set_err _ _ _ _ _ _ _ (unpack_blob_rt TAG_RS256 p.rs256 hrs.1) ?_
    refine bind_set_err _ _ _ _ _ _ _ (unpack_blob_rt TAG_ES256 p.es256 hes.1) ?_
    refine bind_set_err _ _ _ _ _ _ _ (unpack_blob_rt TAG_EDDSA p.eddsa hed.1) ?_
    refine bind_set_err _ _ _ _ _ _ _ (unpack_blob_rt TAG_CRED p.cred hcred.1) ?_
    exact bind_tc_blob TAG_CDH c _ _
      (by simp only [List.length_set, List.length_append, List.length_cons, List.length_nil, pack_byte, pack_int, pack_string, pack_blob, leBytes_length]; omega)
      (getDSetZero _ _ _ (by simp [pack_byte, pack_int, pack_string, pack_blob])) hc
/-- Example client-data hash (fuzz_assert.c lines 61-66). -/
def dummy_cdh : List Nat :=
  [0xec, 0x8d, 0x8f, 0x78, 0x42, 0x4a, 0x2b, 0xb7,
   0x82, 0x34, 0xaa, 0xca, 0x07, 0xa1, 0xf6, 0x56,
   0x42, 0x1c, 0xb6, 0xf6, 0xb3, 0x00, 0x86, 0x52,
   0x35, 0x2d, 0xa2, 0x62, 0x4a, 0xbe, 0x89, 0x76]

/-- Example ES256 public key material (lines 68-77). -/
def dummy_es256 : List Nat :=
  [0xcc, 0x1b, 0x50, 0xac, 0xc4, 0x19, 0xf8, 0x3a,
   0xee, 0x0a, 0x77, 0xd6, 0xf3, 0x53, 0xdb, 0xef,
   0xf2, 0xb9, 0x5c, 0x2d, 0x8b, 0x1e, 0x52, 0x58,
   0x88, 0xf4, 0x0b, 0x85, 0x1f, 0x40, 0x6d, 0x18,
   0x15, 0xb3, 0xcc, 0x25, 0x7c, 0x38, 0x3d, 0xec,
   0xdf, 0xad, 0xbd, 0x46, 0x91, 0xc3, 0xac, 0x30,
   0x94, 0x2a, 0xf7, 0x78, 0x35, 0x70, 0x59, 0x6f,
   0x28, 0xcb, 0x8e, 0x07, 0x85, 0xb5, 0x91, 0x96]

/-- Example RS256 public key material (lines 79-113). -/
def dummy_rs256 : List Nat :=
  [0xd2, 0xa8, 0xc0, 0x11, 0x82, 0x9e, 0x57, 0x2e,
   0x60, 0xae, 0x8c, 0xb0, 0x09, 0xe1, 0x58, 0x2b,
   0x99, 0xec, 0xc3, 0x11, 0x1b, 0xef, 0x81, 0x49,
   0x34, 0x53, 0x6a, 0x01, 0x65, 0x2c, 0x24, 0x09,
   0x30, 0x87, 0x98, 0x51, 0x6e, 0x30, 0x4f, 0x60,
   0xbd, 0x54, 0xd2, 0x54, 0xbd, 0x94, 0x42, 0xdd,
   0x63, 0xe5, 0x2c, 0xc6, 0x04, 0x32, 0xc0, 0x8f,
   0x72, 0xd5, 0xb4, 0xf0, 0x4f, 0x42, 0xe5, 0xb0,
   0xa2, 0x95, 0x11, 0xfe, 0xd8, 0xb0, 0x65, 0x34,
   0xff, 0xfb, 0x44, 0x97, 0x52, 0xfc, 0x67, 0x23,
   0x0b, 0xad, 0xf3, 0x3a, 0x82, 0xd4, 0x96, 0x10,
   0x87, 0x6b, 0xfa, 0xd6, 0x51, 0x60, 0x3e, 0x1c,
   0xae, 0x19, 0xb8, 0xce, 0x08, 0xae, 0x9a, 0xee,
   0x78, 0x16, 0x22, 0xcc, 0x92, 0xcb, 0xa8, 0x95,
   0x34, 0xe5, 0xb9, 0x42, 0x6a, 0xf0, 0x2e, 0x82,
   0x1f, 0x4c, 0x7d, 0x84, 0x94, 0x68, 0x7b, 0x97,
   0x2b, 0xf7, 0x7d, 0x67, 0x83, 0xbb, 0xc7, 0x8a,
   0x31, 0x5a, 0xf3, 0x2a, 0x95, 0xdf, 0x63, 0xe7,
   0x4e, 0xee, 0x26, 0xda, 0x87, 0x00, 0xe2, 0x23,
   0x4a, 0x33, 0x9a, 0xa0, 0x1b, 0xce, 0x60, 0x1f,
   0x98, 0xa1, 0xb0, 0xdb, 0xbf, 0x20, 0x59, 0x27,
   0xf2, 0x06, 0xd9, 0xbe, 0x37, 0xa4, 0x03, 0x6b,
   0x6a, 0x4e, 0xaf, 0x22, 0x68, 0xf3, 0xff, 0x28,
   0x59, 0x05, 0xc9, 0xf1, 0x28, 0xf4, 0xbb, 0x35,
   0xe0, 0xc2, 0x68, 0xc2, 0xaa, 0x54, 0xac, 0x8c,
   0xc1, 0x69, 0x9e, 0x4b, 0x32, 0xfc, 0x53, 0x58,
   0x85, 0x7d, 0x3f, 0x51, 0xd1, 0xc9, 0x03, 0x02,
   0x13, 0x61, 0x62, 0xda, 0xf8, 0xfe, 0x3e, 0xc8,
   0x95, 0x12, 0xfb, 0x0c, 0xdf, 0x06, 0x65, 0x6f,
   0x23, 0xc7, 0x83, 0x7c, 0x50, 0x2d, 0x27, 0x25,
   0x4d, 0xbf, 0x94, 0xf0, 0x89, 0x04, 0xb9, 0x2d,
   0xc4, 0xa5, 0x32, 0xa9, 0x25, 0x0a, 0x99, 0x59,
   0x01, 0x00, 0x01]

/-- Example EdDSA public key material (lines 115-120). -/
def dummy_eddsa : List Nat :=
  [0xfe, 0x8b, 0x61, 0x50, 0x31, 0x7a, 0xe6, 0xdf,
   0xb1, 0x04, 0x9d, 0x4d, 0xb5, 0x7a, 0x5e, 0x96,
   0x4c, 0xb2, 0xf9, 0x5f, 0x72, 0x47, 0xb5, 0x18,
   0xe2, 0x39, 0xdf, 0x2f, 0x87, 0x19, 0xb3, 0x02]

/-- Pre-recorded HID reports of a FIDO2 get-assertion exchange (lines 126-191). -/
def dummy_wire_data_fido : List Nat :=
  [0xff, 0xff, 0xff, 0xff, 0x86, 0x00, 0x11, 0xf7,
   0x6f, 0xda, 0x52, 0xfd, 0xcb, 0xb6, 0x24, 0x00,
   0x92, 0x00, 0x0e, 0x02, 0x05, 0x00, 0x02, 0x05,
   0x00, 0x00, 0x00, 0x00, 0x00, 0x00, 0x00, 0x00,
   0x00, 0x00, 0x00, 0x00, 0x00, 0x00, 0x00, 0x00,
   0x00, 0x00, 0x00, 0x00, 0x00, 0x00, 0x00, 0x00,
   0x00, 0x00, 0x00, 0x00, 0x00, 0x00, 0x00, 0x00,
   0x00, 0x00, 0x00, 0x00, 0x00, 0x00, 0x00, 0x00,
   0x00, 0x92, 0x00, 0x0e, 0x90, 0x00, 0x51, 0x00,
   0xa1, 0x01, 0xa5, 0x01, 0x02, 0x03, 0x38, 0x18,
   0x20, 0x01, 0x21, 0x58, 0x20, 0xe9, 0x1d, 0x9b,
   0xac, 0x14, 0x25, 0x5f, 0xda, 0x1e, 0x11, 0xdb,
   0xae, 0xc2, 0x90, 0x22, 0xca, 0x32, 0xec, 0x32,
   0xe6, 0x05, 0x15, 0x44, 0xe5, 0xe8, 0xbc, 0x4f,
   0x0a, 0xb6, 0x1a, 0xeb, 0x11, 0x22, 0x58, 0x20,
   0xcc, 0x72, 0xf0, 0x22, 0xe8, 0x28, 0x82, 0xc5,
   0x00, 0x92, 0x00, 0x0e, 0x00, 0xa6, 0x65, 0x6e,
   0xff, 0x1e, 0xe3, 0x7f, 0x27, 0x44, 0x2d, 0xfb,
   0x8d, 0x41, 0xfa, 0x85, 0x0e, 0xcb, 0xda, 0x95,
   0x64, 0x64, 0x9b, 0x1f, 0x34, 0x00, 0x00, 0x00,
   0x00, 0x00, 0x00, 0x00, 0x00, 0x00, 0x00, 0x00,
   0x00, 0x00, 0x00, 0x00, 0x00, 0x00, 0x00, 0x00,
   0x00, 0x00, 0x00, 0x00, 0x00, 0x00, 0x00, 0x00,
   0x00, 0x00, 0x00, 0x00, 0x00, 0x00, 0x00, 0x00,
   0x00, 0x92, 0x00, 0x0e, 0x90, 0x00, 0x14, 0x00,
   0xa1, 0x02, 0x50, 0xee, 0x40, 0x4c, 0x85, 0xd7,
   0xa1, 0x2f, 0x56, 0xc4, 0x4e, 0xc5, 0x93, 0x41,
   0xd0, 0x3b, 0x23, 0x00, 0x00, 0x00, 0x00, 0x00,
   0x00, 0x00, 0x00, 0x00, 0x00, 0x00, 0x00, 0x00,
   0x00, 0x00, 0x00, 0x00, 0x00, 0x00, 0x00, 0x00,
   0x00, 0x00, 0x00, 0x00, 0x00, 0x00, 0x00, 0x00,
   0x00, 0x00, 0x00, 0x00, 0x00, 0x00, 0x00, 0x00,
   0x00, 0x92, 0x00, 0x0e, 0x90, 0x00, 0xcb, 0x00,
   0xa3, 0x01, 0xa2, 0x62, 0x69, 0x64, 0x58, 0x40,
   0x4a, 0x4c, 0x9e, 0xcc, 0x81, 0x7d, 0x42, 0x03,
   0x2b, 0x41, 0xd1, 0x38, 0xd3, 0x49, 0xb4, 0xfc,
   0xfb, 0xe4, 0x4e, 0xe4, 0xff, 0x76, 0x34, 0x16,
   0x68, 0x06, 0x9d, 0xa6, 0x01, 0x32, 0xb9, 0xff,
   0xc2, 0x35, 0x0d, 0x89, 0x43, 0x66, 0x12, 0xf8,
   0x8e, 0x5b, 0xde, 0xf4, 0xcc, 0xec, 0x9d, 0x03,
   0x00, 0x92, 0x00, 0x0e, 0x00, 0x85, 0xc2, 0xf5,
   0xe6, 0x8e, 0xeb, 0x3f, 0x3a, 0xec, 0xc3, 0x1d,
   0x04, 0x6e, 0xf3, 0x5b, 0x88, 0x64, 0x74, 0x79,
   0x70, 0x65, 0x6a, 0x70, 0x75, 0x62, 0x6c, 0x69,
   0x63, 0x2d, 0x6b, 0x65, 0x79, 0x02, 0x58, 0x25,
   0x49, 0x96, 0x0d, 0xe5, 0x88, 0x0e, 0x8c, 0x68,
   0x74, 0x34, 0x17, 0x0f, 0x64, 0x76, 0x60, 0x5b,
   0x8f, 0xe4, 0xae, 0xb9, 0xa2, 0x86, 0x32, 0xc7,
   0x00, 0x92, 0x00, 0x0e, 0x01, 0x99, 0x5c, 0xf3,
   0xba, 0x83, 0x1d, 0x97, 0x63, 0x04, 0x00, 0x00,
   0x00, 0x09, 0x03, 0x58, 0x47, 0x30, 0x45, 0x02,
   0x21, 0x00, 0xcf, 0x3f, 0x36, 0x0e, 0x1f, 0x6f,
   0xd6, 0xa0, 0x9d, 0x13, 0xcf, 0x55, 0xf7, 0x49,
   0x8f, 0xc8, 0xc9, 0x03, 0x12, 0x76, 0x41, 0x75,
   0x7b, 0xb5, 0x0a, 0x90, 0xa5, 0x82, 0x26, 0xf1,
   0x6b, 0x80, 0x02, 0x20, 0x34, 0x9b, 0x7a, 0x82,
   0x00, 0x92, 0x00, 0x0e, 0x02, 0xd3, 0xe1, 0x79,
   0x49, 0x55, 0x41, 0x9f, 0xa4, 0x06, 0x06, 0xbd,
   0xc8, 0xb9, 0x2b, 0x5f, 0xe1, 0xa7, 0x99, 0x1c,
   0xa1, 0xfc, 0x7e, 0x3e, 0xd5, 0x85, 0x2e, 0x11,
   0x75, 0x00, 0x00, 0x00, 0x00, 0x00, 0x00, 0x00,
   0x00, 0x00, 0x00, 0x00, 0x00, 0x00, 0x00, 0x00,
   0x00, 0x00, 0x00, 0x00, 0x00, 0x00, 0x00, 0x00,
   0x00, 0x00, 0x00, 0x00, 0x00, 0x00, 0x00, 0x00]

/-- Pre-recorded HID reports of a U2F authentication exchange (lines 197-294). -/
def dummy_wire_data_u2f : List Nat :=
  [0xff, 0xff, 0xff, 0xff, 0x86, 0x00, 0x11, 0x0f,
   0x26, 0x9c, 0xd3, 0x87, 0x0d, 0x7b, 0xf6, 0x00,
   0x00, 0x99, 0x01, 0x02, 0x01, 0x01, 0x00, 0x01,
   0x00, 0x00, 0x00, 0x00, 0x00, 0x00, 0x00, 0x00,
   0x00, 0x00, 0x00, 0x00, 0x00, 0x00, 0x00, 0x00,
   0x00, 0x00, 0x00, 0x00, 0x00, 0x00, 0x00, 0x00,
   0x00, 0x00, 0x00, 0x00, 0x00, 0x00, 0x00, 0x00,
   0x00, 0x00, 0x00, 0x00, 0x00, 0x00, 0x00, 0x00,
   0x00, 0x00, 0x99, 0x01, 0x83, 0x00, 0x02, 0x69,
   0x85, 0x00, 0x00, 0x00, 0x00, 0x00, 0x00, 0x00,
   0x00, 0x00, 0x00, 0x00, 0x00, 0x00, 0x00, 0x00,
   0x00, 0x00, 0x00, 0x00, 0x00, 0x00, 0x00, 0x00,
   0x00, 0x00, 0x00, 0x00, 0x00, 0x00, 0x00, 0x00,
   0x00, 0x00, 0x00, 0x00, 0x00, 0x00, 0x00, 0x00,
   0x00, 0x00, 0x00, 0x00, 0x00, 0x00, 0x00, 0x00,
   0x00, 0x00, 0x00, 0x00, 0x00, 0x00, 0x00, 0x00,
   0x00, 0x00, 0x99, 0x01, 0x83, 0x00, 0x02, 0x69,
   0x85, 0x00, 0x00, 0x00, 0x00, 0x00, 0x00, 0x00,
   0x00, 0x00, 0x00, 0x00, 0x00, 0x00, 0x00, 0x00,
   0x00, 0x00, 0x00, 0x00, 0x00, 0x00, 0x00, 0x00,
   0x00, 0x00, 0x00, 0x00, 0x00, 0x00, 0x00, 0x00,
   0x00, 0x00, 0x00, 0x00, 0x00, 0x00, 0x00, 0x00,
   0x00, 0x00, 0x00, 0x00, 0x00, 0x00, 0x00, 0x00,
   0x00, 0x00, 0x00, 0x00, 0x00, 0x00, 0x00, 0x00,
   0x00, 0x00, 0x99, 0x01, 0x83, 0x00, 0x02, 0x69,
   0x85, 0x00, 0x00, 0x00, 0x00, 0x00, 0x00, 0x00,
   0x00, 0x00, 0x00, 0x00, 0x00, 0x00, 0x00, 0x00,
   0x00, 0x00, 0x00, 0x00, 0x00, 0x00, 0x00, 0x00,
   0x00, 0x00, 0x00, 0x00, 0x00, 0x00, 0x00, 0x00,
   0x00, 0x00, 0x00, 0x00, 0x00, 0x00, 0x00, 0x00,
   0x00, 0x00, 0x00, 0x00, 0x00, 0x00, 0x00, 0x00,
   0x00, 0x00, 0x00, 0x00, 0x00, 0x00, 0x00, 0x00,
   0x00, 0x00, 0x99, 0x01, 0x83, 0x00, 0x02, 0x69,
   0x85, 0x00, 0x00, 0x00, 0x00, 0x00, 0x00, 0x00,
   0x00, 0x00, 0x00, 0x00, 0x00, 0x00, 0x00, 0x00,
   0x00, 0x00, 0x00, 0x00, 0x00, 0x00, 0x00, 0x00,
   0x00, 0x00, 0x00, 0x00, 0x00, 0x00, 0x00, 0x00,
   0x00, 0x00, 0x00, 0x00, 0x00, 0x00, 0x00, 0x00,
   0x00, 0x00, 0x00, 0x00, 0x00, 0x00, 0x00, 0x00,
   0x00, 0x00, 0x00, 0x00, 0x00, 0x00, 0x00, 0x00,
   0x00, 0x00, 0x99, 0x01, 0x83, 0x00, 0x02, 0x69,
   0x85, 0x00, 0x00, 0x00, 0x00, 0x00, 0x00, 0x00,
   0x00, 0x00, 0x00, 0x00, 0x00, 0x00, 0x00, 0x00,
   0x00, 0x00, 0x00, 0x00, 0x00, 0x00, 0x00, 0x00,
   0x00, 0x00, 0x00, 0x00, 0x00, 0x00, 0x00, 0x00,
   0x00, 0x00, 0x00, 0x00, 0x00, 0x00, 0x00, 0x00,
   0x00, 0x00, 0x00, 0x00, 0x00, 0x00, 0x00, 0x00,
   0x00, 0x00, 0x00, 0x00, 0x00, 0x00, 0x00, 0x00,
   0x00, 0x00, 0x99, 0x01, 0x83, 0x00, 0x02, 0x69,
   0x85, 0x00, 0x00, 0x00, 0x00, 0x00, 0x00, 0x00,
   0x00, 0x00, 0x00, 0x00, 0x00, 0x00, 0x00, 0x00,
   0x00, 0x00, 0x00, 0x00, 0x00, 0x00, 0x00, 0x00,
   0x00, 0x00, 0x00, 0x00, 0x00, 0x00, 0x00, 0x00,
   0x00, 0x00, 0x00, 0x00, 0x00, 0x00, 0x00, 0x00,
   0x00, 0x00, 0x00, 0x00, 0x00, 0x00, 0x00, 0x00,
   0x00, 0x00, 0x00, 0x00, 0x00, 0x00, 0x00, 0x00,
   0x00, 0x00, 0x99, 0x01, 0x83, 0x00, 0x02, 0x69,
   0x85, 0x00, 0x00, 0x00, 0x00, 0x00, 0x00, 0x00,
   0x00, 0x00, 0x00, 0x00, 0x00, 0x00, 0x00, 0x00,
   0x00, 0x00, 0x00, 0x00, 0x00, 0x00, 0x00, 0x00,
   0x00, 0x00, 0x00, 0x00, 0x00, 0x00, 0x00, 0x00,
   0x00, 0x00, 0x00, 0x00, 0x00, 0x00, 0x00, 0x00,
   0x00, 0x00, 0x00, 0x00, 0x00, 0x00, 0x00, 0x00,
   0x00, 0x00, 0x00, 0x00, 0x00, 0x00, 0x00, 0x00,
   0x00, 0x00, 0x99, 0x01, 0x83, 0x00, 0x02, 0x69,
   0x85, 0x00, 0x00, 0x00, 0x00, 0x00, 0x00, 0x00,
   0x00, 0x00, 0x00, 0x00, 0x00, 0x00, 0x00, 0x00,
   0x00, 0x00, 0x00, 0x00, 0x00, 0x00, 0x00, 0x00,
   0x00, 0x00, 0x00, 0x00, 0x00, 0x00, 0x00, 0x00,
   0x00, 0x00, 0x00, 0x00, 0x00, 0x00, 0x00, 0x00,
   0x00, 0x00, 0x00, 0x00, 0x00, 0x00, 0x00, 0x00,
   0x00, 0x00, 0x00, 0x00, 0x00, 0x00, 0x00, 0x00,
   0x00, 0x00, 0x99, 0x01, 0x83, 0x00, 0x02, 0x69,
   0x85, 0x00, 0x00, 0x00, 0x00, 0x00, 0x00, 0x00,
   0x00, 0x00, 0x00, 0x00, 0x00, 0x00, 0x00, 0x00,
   0x00, 0x00, 0x00, 0x00, 0x00, 0x00, 0x00, 0x00,
   0x00, 0x00, 0x00, 0x00, 0x00, 0x00, 0x00, 0x00,
   0x00, 0x00, 0x00, 0x00, 0x00, 0x00, 0x00, 0x00,
   0x00, 0x00, 0x00, 0x00, 0x00, 0x00, 0x00, 0x00,
   0x00, 0x00, 0x00, 0x00, 0x00, 0x00, 0x00, 0x00,
   0x00, 0x00, 0x99, 0x01, 0x83, 0x00, 0x4e, 0x01,
   0x00, 0x00, 0x00, 0x2c, 0x30, 0x45, 0x02, 0x20,
   0x1c, 0xf5, 0x7c, 0xf6, 0xde, 0xbe, 0xe9, 0x86,
   0xee, 0x97, 0xb7, 0x64, 0xa3, 0x4e, 0x7a, 0x70,
   0x85, 0xd0, 0x66, 0xf9, 0xf0, 0xcd, 0x04, 0x5d,
   0x97, 0xf2, 0x3c, 0x22, 0xe3, 0x0e, 0x61, 0xc8,
   0x02, 0x21, 0x00, 0x97, 0xef, 0xae, 0x36, 0xe6,
   0x17, 0x9f, 0x5e, 0x2d, 0xd7, 0x8c, 0x34, 0xa7,
   0x00, 0x00, 0x99, 0x01, 0x00, 0xa1, 0xe9, 0xfb,
   0x8f, 0x86, 0x8c, 0xe3, 0x1e, 0xde, 0x3f, 0x4e,
   0x1b, 0xe1, 0x2f, 0x8f, 0x2f, 0xca, 0x42, 0x26,
   0x90, 0x00, 0x00, 0x00, 0x00, 0x00, 0x00, 0x00,
   0x00, 0x00, 0x00, 0x00, 0x00, 0x00, 0x00, 0x00,
   0x00, 0x00, 0x00, 0x00, 0x00, 0x00, 0x00, 0x00,
   0x00, 0x00, 0x00, 0x00, 0x00, 0x00, 0x00, 0x00,
   0x00, 0x00, 0x00, 0x00, 0x00, 0x00, 0x00, 0x00]

/-- Example relying-party identifier bytes (fuzz_assert.c line 58). -/
def dummy_rp_id : List Nat :=
  [108, 111, 99, 97, 108, 104, 111, 115, 116]

/-- Example PIN bytes (fuzz_assert.c line 59). -/
def dummy_pin : List Nat :=
  [57, 125, 52, 103, 84, 58, 56, 100, 61, 65, 51, 55, 68, 104, 125, 85]

/-- Modelled from the spec: the HMAC-secret extension selector
(`FIDO_EXT_HMAC_SECRET` of `fido.h`, not under `src/`). -/
def FIDO_EXT_HMAC_SECRET : Nat := 0x01

/-- The canonical example record built by `pack_dummy` (fuzz_assert.c lines
567-590): zeroed record with credential type 1, the HMAC-secret extension,
the example PIN, relying-party id, keys and FIDO2 wire data. -/
def dummyParam : Param :=
  { pin := dummy_pin, rp_id := dummy_rp_id, ext := FIDO_EXT_HMAC_SECRET,
    seed := 0, cdh := dummy_cdh, cred := [], es256 := dummy_es256,
    rs256 := dummy_rs256, eddsa := dummy_eddsa,
    wire_data := dummy_wire_data_fido, cred_count := 0, type := 1,
    u2f := 0, up := 0, uv := 0 }

/-- A zero-initialized record (`memset(&p, 0, sizeof(p))`). -/
def zeroParam : Param :=
  { pin := [], rp_id := [], ext := 0, seed := 0, cdh := [], cred := [],
    es256 := [], rs256 := [], eddsa := [], wire_data := [], cred_count := 0,
    type := 0, u2f := 0, up := 0, uv := 0 }

/-- Translation of `pack_dummy` of `fuzz_assert.c` (lines 564-603): packs `dummyParam`
into a 16384-byte scratch buffer (asserted to succeed) and copies the
result out, truncated to the first `maxsize` bytes when it does not fit. -/
def pack_dummy (maxsize : Nat) : List Nat :=
  match pack 16384 dummyParam with
  | some bs => if maxsize < bs.length then bs.take maxsize else bs
  | none => []

/-! ### The mutator -/

/-- Modelled from the spec (sections 5 and 9): the process-wide
pseudo-random source, threaded explicitly as a state.  The concrete
generator is irrelevant to every claim; drawing returns the state and
advances it. -/
structure Rng where
  s : Nat
deriving DecidableEq

/-- Modelled from the spec: one draw from the pseudo-random source.  The
distribution is irrelevant to every claim; this stream keeps its values
small (below 64) so that concrete runs stay cheap to evaluate. -/
def rngNext (g : Rng) : Nat × Rng := (g.s % 64, ⟨g.s + 1⟩)

/-- Modelled from the spec: `mutate_byte` of `mutator_aux.c` (not under
`src/`); spec section 4.3: flip the scalar to a pseudo-random byte value. -/
def mutate_byte (g : Rng) : Nat × Rng :=
  let r := rngNext g
  (r.1 % 256, r.2)

/-- Modelled from the spec: `mutate_int` of `mutator_aux.c` (not under
`src/`); spec section 4.3: replace the integer with a pseudo-random
value. -/
def mutate_int (g : Rng) : Nat × Rng :=
  let r := rngNext g
  (r.1 % 2 ^ 32, r.2)

/-- Modelled from the spec: `mutate_blob` of `mutator_aux.c` (not under
`src/`); spec section 4.3: apply to the current blob a bounded random
length change (resizing within the capacity, zero-filling any exposed
bytes) and a random byte substitution at a random position.  The retained
bytes are reduced mod 256, mirroring the `uint8_t` body. -/
def mutate_blob (b : List Nat) (g : Rng) : List Nat × Rng :=
  let r1 := rngNext g
  let r2 := rngNext r1.2
  let r3 := rngNext r2.2
  let n := r1.1 % MAXBLOB + 1
  ((((b ++ List.replicate n 0).take n).map (fun x => x % 256)).set
      (r3.1 % n) (r2.1 % 256), r3.2)

/-- Modelled from the spec: `mutate_string` of `mutator_aux.c` (not under
`src/`); spec section 4.3: apply to the current string a bounded random
length change and a random character substitution at a random position,
preserving NUL-termination and the capacity — every retained or written
character is forced into the printable (nonzero) byte range. -/
def mutate_string (s : List Nat) (g : Rng) : List Nat × Rng :=
  let r1 := rngNext g
  let r2 := rngNext r1.2
  let r3 := rngNext r2.2
  let n := r1.1 % (MAXSTR - 1)
  ((((s ++ List.replicate n 32).take n).map (fun c => c % 95 + 32)).set
      (r3.1 % n) (r2.1 % 95 + 32), r3.2)

/-- The field-mutation phase of `LLVMFuzzerCustomMutator` (fuzz_assert.c
lines 620-647), translated statement by statement: mutate the five scalars
and the extension word, store the engine seed in the seed field of the record,
re-derive the wire data from the mutated transport flag, then mutate the
six blobs and the two strings in place — each blob or string mutation
consumes the current field value, so the wire-data mutation acts on the
just-substituted canonical example. -/
def mutateRecord (p : Param) (seed : Nat) (g : Rng) : Param × Rng :=
  let r1 := mutate_byte g
  let r2 := mutate_byte r1.2
  let r3 := mutate_byte r2.2
  let r4 := mutate_byte r3.2
  let r5 := mutate_byte r4.2
  let r6 := mutate_int r5.2
  let p1 : Param :=
    { p with
      uv := r1.1, up := r2.1, u2f := r3.1, type := r4.1,
      cred_count := r5.1, ext := r6.1, seed := seed % 2 ^ 32 }
  let p2 : Param :=
    { p1 with wire_data :=
        if p1.u2f % 2 = 1 then dummy_wire_data_u2f else dummy_wire_data_fido }
  let b1 := mutate_blob p2.wire_data r6.2
  let b2 := mutate_blob p2.rs256 b1.2
  let b3 := mutate_blob p2.es256 b2.2
  let b4 := mutate_blob p2.eddsa b3.2
  let b5 := mutate_blob p2.cred b4.2
  let b6 := mutate_blob p2.cdh b5.2
  let s1 := mutate_string p2.rp_id b6.2
  let s2 := mutate_string p2.pin s1.2
  ({ p2 with
     wire_data := b1.1, rs256 := b2.1, es256 := b3.1, eddsa := b4.1,
     cred := b5.1, cdh := b6.1, rp_id := s1.1, pin := s2.1 }, s2.2)

/-- Spec section 4.3 step 3, first phase: mutate the scalar bytes and the
extension integer, and set the seed field from the externally supplied
seed. -/
def mutateScalars (p : Param) (seed : Nat) (g : Rng) : Param × Rng :=
  let r1 := mutate_byte g
  let r2 := mutate_byte r1.2
  let r3 := mutate_byte r2.2
  let r4 := mutate_byte r3.2
  let r5 := mutate_byte r4.2
  let r6 := mutate_int r5.2
  ({ p with
     uv := r1.1, up := r2.1, u2f := r3.1, type := r4.1,
     cred_count := r5.1, ext := r6.1, seed := seed % 2 ^ 32 }, r6.2)

/-- Spec section 4.3 step 2: re-derive the simulated wire data
deterministically from the (possibly just-mutated) transport-mode flag —
the canonical U2F example when U2F mode is selected, the canonical FIDO2
example otherwise. -/
def rederiveWire (p : Param) : Param :=
  { p with wire_data :=
      if p.u2f % 2 = 1 then dummy_wire_data_u2f else dummy_wire_data_fido }

/-- Spec section 4.3 step 3, second phase: blob-level mutation of the six
blob fields (wire data first) followed by the two strings, each applied to
the current field value of the record it receives. -/
def mutateBlobsStrings (p : Param) (g : Rng) : Param × Rng :=
  let b1 := mutate_blob p.wire_data g
  let b2 := mutate_blob p.rs256 b1.2
  let b3 := mutate_blob p.es256 b2.2
  let b4 := mutate_blob p.eddsa b3.2
  let b5 := mutate_blob p.cred b4.2
  let b6 := mutate_blob p.cdh b5.2
  let s1 := mutate_string p.rp_id b6.2
  let s2 := mutate_string p.pin s1.2
  ({ p with
     wire_data := b1.1, rs256 := b2.1, es256 := b3.1, eddsa := b4.1,
     cred := b5.1, cdh := b6.1, rp_id := s1.1, pin := s2.1 }, s2.2)

/-- The re-encode step of `LLVMFuzzerCustomMutator` (fuzz_assert.c lines
649-656): pack the mutated record into the 16384-byte scratch buffer and
return it, unless packing failed or the result exceeds `maxsize` (then
return nothing). -/
def mutatorEncode (p : Param) (maxsize seed : Nat) (g : Rng) : List Nat × Rng :=
  match pack 16384 (mutateRecord p seed g).1 with
  | none => ([], (mutateRecord p seed g).2)
  | some bs =>
    if maxsize < bs.length then ([], (mutateRecord p seed g).2)
    else (bs, (mutateRecord p seed g).2)

/-- Translation of `LLVMFuzzerCustomMutator` of `fuzz_assert.c` (lines 605-657): decode
the buffer; on failure emit the dummy encoding (`pack_dummy`); otherwise
mutate the record fields and re-encode (`mutatorEncode`).  The C
`(void)seed` notwithstanding, the seed reaches only the seed field of the
record; the pseudo-random source state `g` is the process-wide generator
state at entry, threaded explicitly. -/
def LLVMFuzzerCustomMutator (data : List Nat) (maxsize seed : Nat) (g : Rng) :
    List Nat × Rng :=
  match unpack data with
  | .error _ => (pack_dummy maxsize, g)
  | .ok p => mutatorEncode p maxsize seed g

/-! ### The exercise entry point -/

/-- The three signature-algorithm families dispatched on `p.type & 3`
(fuzz_assert.c lines 483-518). -/
inductive Alg where
  | es256
  | rs256
  | eddsa
deriving DecidableEq

/-- Modelled from the spec: the public key handed to the verify call, one
constructor per algorithm family, built from the matching key-material
blob (the `es256_pk_from_ptr` family lives outside `src/`). -/
inductive PK where
  | es (b : List Nat)
  | rs (b : List Nat)
  | ed (b : List Nat)
deriving DecidableEq

/-- Observable calls the exercise entry point makes into its collaborators
(modelled from the spec section 6; the collaborators are outside `src/`). -/
inductive Event where
  | srandomCall (seed : Nat)
  | keyNew (a : Alg)
  | setWire (b : List Nat)
  | getAssertCall
  | verifyCall (idx : Nat) (a : Alg) (pk : PK)
deriving DecidableEq

/-- The algorithm selector chosen from the credential-type field:
`switch (p.type & 3)` with cases 0, 1 and default
(fuzz_assert.c lines 483-518). -/
def cose_of (type : Nat) : Alg :=
  if type % 4 = 0 then .es256 else if type % 4 = 1 then .rs256 else .eddsa

/-- The public key built for the selected algorithm family from the
matching key blob of the record. -/
def pk_of (p : Param) : PK :=
  match cose_of p.type with
  | .es256 => .es p.es256
  | .rs256 => .rs p.rs256
  | .eddsa => .ed p.eddsa

/-- Whether an event is a `verify_assert` invocation. -/
def isVerify : Event → Bool
  | .verifyCall _ _ _ => true
  | _ => false

/-- Translation of `LLVMFuzzerTestOneInput` of `fuzz_assert.c` (lines 462-562), as the
trace of collaborator calls it performs.  A rejected buffer returns 0 at
once with no calls.  An accepted record seeds the PRNG, builds the key for
the selected algorithm, installs the wire data, runs the get-assertion
call, and then — `/* XXX +1 on purpose */` — runs `verify_assert` for every
index `i` with `0 ≤ i ≤ assertCount`, one past the reported count.
`assertCount` stands for `fido_assert_count(assert)` after the get-assert
call; the fido library is outside `src/` and is modelled from the spec as
an oracle parameter.  Allocation failures are not modelled. -/
def LLVMFuzzerTestOneInput (data : List Nat) (assertCount : Nat) :
    Nat × List Event :=
  match unpack data with
  | .error _ => (0, [])
  | .ok p =>
    (0, [Event.srandomCall p.seed, Event.keyNew (cose_of p.type),
         Event.setWire p.wire_data, Event.getAssertCall] ++
        (List.range (assertCount + 1)).map
          (fun i => Event.verifyCall i (cose_of p.type) (pk_of p)))

/-! ### Well-formedness of mutated records -/

theorem resizeSub_blob_wf (b : List Nat) (n i v : Nat) (hn : n ≤ MAXBLOB)
    (hv : v < 256) :
    wfBlob ((((b ++ List.replicate n 0).take n).map (fun x => x % 256)).set i v) := by
  constructor
  · simp only [List.length_set, List.length_map, List.length_take,
      List.length_append, List.length_replicate]
    omega
  · intro x hx
    rcases List.mem_or_eq_of_mem_set hx with h | h
    · obtain ⟨y, _, hy⟩ := List.mem_map.mp h
      omega
    · omega

theorem resizeSub_str_wf (s : List Nat) (n i v : Nat) (hn : n < MAXSTR)
    (hv : v ≠ 0 ∧ v < 256) :
    wfStr ((((s ++ List.replicate n 32).take n).map (fun c => c % 95 + 32)).set i v) := by
  constructor
  · simp only [List.length_set, List.length_map, List.length_take,
      List.length_append, List.length_replicate]
    omega
  · intro x hx
    rcases List.mem_or_eq_of_mem_set hx with h | h
    · obtain ⟨y, _, hy⟩ := List.mem_map.mp h
      omega
    · omega

theorem mutate_blob_wf (b : List Nat) (g : Rng) : wfBlob (mutate_blob b g).1 := by
  unfold mutate_blob
  have hn : (rngNext g).1 % MAXBLOB + 1 ≤ MAXBLOB :=
    Nat.mod_lt (rngNext g).1 (y := MAXBLOB) (by unfold MAXBLOB; omega)
  exact resizeSub_blob_wf b _ _ _ hn (Nat.mod_lt _ (by omega))

theorem mutate_string_wf (s : List Nat) (g : Rng) : wfStr (mutate_string s g).1 := by
  unfold mutate_string
  have hn : (rngNext g).1 % (MAXSTR - 1) < MAXSTR := by
    have := Nat.mod_lt (rngNext g).1 (y := MAXSTR - 1) (by unfold MAXSTR; omega)
    unfold MAXSTR at *
    omega
  exact resizeSub_str_wf s _ _ _ hn ⟨by omega, by omega⟩

theorem mutate_byte_lt (g : Rng) : (mutate_byte g).1 < 256 := by
  unfold mutate_byte
  exact Nat.mod_lt _ (by omega)

theorem mutate_int_lt (g : Rng) : (mutate_int g).1 < 2 ^ 32 := by
  unfold mutate_int
  exact Nat.mod_lt _ (by norm_num)

theorem mutateRecord_wf (p : Param) (seed : Nat) (g : Rng) :
    wfParam (mutateRecord p seed g).1 := by
  unfold mutateRecord wfParam
  refine ⟨mutate_string_wf _ _, mutate_string_wf _ _, mutate_int_lt _,
    Nat.mod_lt _ (by norm_num), mutate_blob_wf _ _, mutate_blob_wf _ _,
    mutate_blob_wf _ _, mutate_blob_wf _ _, mutate_blob_wf _ _,
    mutate_blob_wf _ _, mutate_byte_lt _, mutate_byte_lt _, mutate_byte_lt _,
    mutate_byte_lt _, mutate_byte_lt _⟩

/-! ### Pack and fallback lemmas -/

theorem pack_eq_some (cap : Nat) (p : Param) (bs : List Nat)
    (h : pack cap p = some bs) : bs = encParam p := by
  unfold pack at h
  by_cases hle : (encParam p).length ≤ cap
  · rw [if_pos hle, Option.some.injEq] at h
    exact h.symm
  · rw [if_neg hle] at h
    exact Option.noConfusion h

theorem dummy_fits : (encParam dummyParam).length ≤ 16384 := by decide

theorem pack_dummy_eq (m : Nat) : pack_dummy m = (encParam dummyParam).take m := by
  have hp : pack 16384 dummyParam = some (encParam dummyParam) := by
    unfold pack
    rw [if_pos dummy_fits]
  unfold pack_dummy
  rw [hp]
  show (if m < (encParam dummyParam).length then (encParam dummyParam).take m
        else encParam dummyParam) = (encParam dummyParam).take m
  by_cases hm : m < (encParam dummyParam).length
  · rw [if_pos hm]
  · rw [if_neg hm]
    exact (List.take_of_length_le (by omega)).symm

theorem wf_dummyParam : wfParam dummyParam := by decide

theorem wf_zeroParam : wfParam zeroParam := by decide

theorem mutatorEncode_fst (p : Param) (maxsize seed : Nat) (g : Rng) :
    (mutatorEncode p maxsize seed g).1 =
      (match pack 16384 (mutateRecord p seed g).1 with
       | none => []
       | some bs => if maxsize < bs.length then [] else bs) := by
  unfold mutatorEncode
  cases hp : pack 16384 (mutateRecord p seed g).1 with
  | none => rfl
  | some bs => by_cases hm : maxsize < bs.length <;> simp [hm]

theorem mutator_ok (data : List Nat) (p : Param) (maxsize seed : Nat) (g : Rng)
    (hu : unpack data = .ok p) :
    LLVMFuzzerCustomMutator data maxsize seed g = mutatorEncode p maxsize seed g := by
  unfold LLVMFuzzerCustomMutator
  rw [hu]

theorem mutator_error (data : List Nat) (e : Err) (maxsize seed : Nat) (g : Rng)
    (hu : unpack data = .error e) :
    LLVMFuzzerCustomMutator data maxsize seed g = (pack_dummy maxsize, g) := by
  unfold LLVMFuzzerCustomMutator
  rw [hu]

/-! ### The claims -/

/-- C1: Round-trip law — for every record whose string fields are
NUL-terminated within their capacity and whose blob fields carry a length
within their declared capacity, `pack` into a sufficiently large buffer
succeeds with a nonempty byte string, and `unpack` on exactly those bytes
succeeds and returns a field-wise equal record. -/
theorem spec_c1_roundtrip (p : Param) (h : wfParam p) (cap : Nat)
    (hcap : (encParam p).length ≤ cap) :
    ∃ bs, pack cap p = some bs ∧ 0 < bs.length ∧ unpack bs = .ok p := by
  refine ⟨encParam p, ?_, ?_, unpack_enc p h⟩
  · unfold pack
    rw [if_pos hcap]
  · unfold encParam pack_byte
    simp

/-- Witness for C1 at the zero record in a 200-byte buffer. -/
theorem spec_c1_roundtrip_witness :
    wfParam zeroParam ∧ (encParam zeroParam).length ≤ 200 ∧
    ∃ bs, pack 200 zeroParam = some bs ∧ 0 < bs.length ∧
      unpack bs = .ok zeroParam :=
  ⟨by decide, by decide, spec_c1_roundtrip zeroParam (by decide) 200 (by decide)⟩

/-- C4: Truncation safety — unpacking any strict prefix of a packed
well-formed record fails with one of the decode errors (and, the model
being a function of exactly those `k` bytes, reads nothing beyond them);
no partial record is returned. -/
theorem spec_c4_truncation (p : Param) (h : wfParam p) (k : Nat)
    (hk : k < (encParam p).length) :
    ∃ e, unpack ((encParam p).take k) = .error e :=
  enc_take_err p h k hk

/-- Witness for C4: cutting the encoding of the zero record at byte 5. -/
theorem spec_c4_truncation_witness :
    wfParam zeroParam ∧ 5 < (encParam zeroParam).length ∧
    ∃ e, unpack ((encParam zeroParam).take 5) = .error e :=
  ⟨by decide, by decide, spec_c4_truncation zeroParam (by decide) 5 (by decide)⟩

/-- C5: Tag-corruption rejection — overwriting any one of the fifteen tag
bytes of a packed well-formed record with any different value makes
`unpack` fail with a tag mismatch; the buffer is never decoded as another
field. -/
theorem spec_c5_tagcorrupt (p : Param) (h : wfParam p) (i : Nat) (hi : i < 15)
    (c : Nat) (hc : c ≠ tagsList.getD i 0) :
    unpack ((encParam p).set ((tagOffsets p).getD i 0) c) = .error .tagMismatch :=
  enc_set_tag p h i hi c hc

/-- Witness for C5: corrupting the first tag byte of the zero record. -/
theorem spec_c5_tagcorrupt_witness :
    wfParam zeroParam ∧ (0 : Nat) < 15 ∧ (99 : Nat) ≠ tagsList.getD 0 0 ∧
    unpack ((encParam zeroParam).set ((tagOffsets zeroParam).getD 0 0) 99) =
      .error .tagMismatch :=
  ⟨by decide, by decide, by decide,
   spec_c5_tagcorrupt zeroParam (by decide) 0 (by decide) 99 (by decide)⟩

/-- C7: a buffer `unpack` rejects makes `LLVMFuzzerTestOneInput` return 0
immediately: no PRNG seeding, no key construction, no device or assertion
calls — an empty collaborator trace. -/
theorem spec_c7_skip (data : List Nat) (e : Err) (h : unpack data = .error e)
    (n : Nat) : LLVMFuzzerTestOneInput data n = (0, []) := by
  unfold LLVMFuzzerTestOneInput
  rw [h]

/-- Witness for C7 on the empty buffer. -/
theorem spec_c7_skip_witness :
    unpack [] = .error .truncated ∧ LLVMFuzzerTestOneInput [] 5 = (0, []) :=
  ⟨rfl, spec_c7_skip [] .truncated rfl 5⟩

/-- C9: trailing bytes are ignored — whenever `unpack` accepts a buffer,
it accepts that buffer with any bytes appended and returns the same
record. -/
theorem spec_c9_trailing (bs : List Nat) (r : Param) (h : unpack bs = .ok r)
    (extra : List Nat) : unpack (bs ++ extra) = .ok r :=
  unpack_trailing bs r h extra

/-- Witness for C9: the encoding of the zero record with three bytes of junk
appended. -/
theorem spec_c9_trailing_witness :
    unpack (encParam zeroParam) = .ok zeroParam ∧
    unpack (encParam zeroParam ++ [1, 2, 3]) = .ok zeroParam :=
  ⟨rfl, spec_c9_trailing (encParam zeroParam) zeroParam rfl [1, 2, 3]⟩

/-- C10: the fallback of the mutator is a fixed function of `maxsize` alone —
on any input `unpack` rejects, with any seed and any pseudo-random state,
the output is the encoding of the fixed dummy record truncated to the
first `maxsize` bytes. -/
theorem spec_c10_fallback (data : List Nat) (maxsize seed : Nat) (g : Rng)
    (e : Err) (h : unpack data = .error e) :
    (LLVMFuzzerCustomMutator data maxsize seed g).1 =
      (encParam dummyParam).take maxsize := by
  rw [mutator_error data e maxsize seed g h]
  exact pack_dummy_eq maxsize

/-- Witness for C10 on a one-byte rejected input. -/
theorem spec_c10_fallback_witness :
    unpack [0] = .error .truncated ∧
    (LLVMFuzzerCustomMutator [0] 3 7 ⟨0⟩).1 = (encParam dummyParam).take 3 :=
  ⟨rfl, spec_c10_fallback [0] 3 7 ⟨0⟩ .truncated rfl⟩

/-- C6: off-by-one verification loop — on any accepted input the exercise
function performs exactly `assertCount + 1` verify calls (indices 0 up to
and including the reported count), each carrying the algorithm selector
chosen from the credential-type field and the public key built for that
family. -/
theorem spec_c6_offbyone (data : List Nat) (p : Param) (h : unpack data = .ok p)
    (n : Nat) :
    ((LLVMFuzzerTestOneInput data n).2.countP isVerify) = n + 1 ∧
    ∀ i a pk, Event.verifyCall i a pk ∈ (LLVMFuzzerTestOneInput data n).2 →
      a = cose_of p.type ∧ pk = pk_of p := by
  have ht : LLVMFuzzerTestOneInput data n =
      (0, [Event.srandomCall p.seed, Event.keyNew (cose_of p.type),
           Event.setWire p.wire_data, Event.getAssertCall] ++
          (List.range (n + 1)).map
            (fun i => Event.verifyCall i (cose_of p.type) (pk_of p))) := by
    unfold LLVMFuzzerTestOneInput
    rw [h]
  rw [ht]
  constructor
  · simp only [List.countP_append, List.countP_cons, List.countP_map, isVerify,
      cond_false, Nat.add_zero, Nat.zero_add]
    have hcp : List.countP
        (isVerify ∘ fun i => Event.verifyCall i (cose_of p.type) (pk_of p))
        (List.range (n + 1)) = (List.range (n + 1)).length :=
      List.countP_eq_length.mpr (fun a _ => rfl)
    rw [hcp, List.length_range]
    simp
  · intro i a pk hmem
    simp only [List.mem_append, List.mem_cons, List.mem_map, List.mem_range,
      List.not_mem_nil, or_false] at hmem
    rcases hmem with ((h1 | h1 | h1 | h1) | ⟨j, _, h2⟩)
    · exact absurd h1 (by simp)
    · exact absurd h1 (by simp)
    · exact absurd h1 (by simp)
    · exact absurd h1 (by simp)
    · rw [Event.verifyCall.injEq] at h2
      exact ⟨h2.2.1.symm, h2.2.2.symm⟩

/-- Witness for C6: the encoding of the zero record with a reported count of 2
gives exactly 3 verify calls. -/
theorem spec_c6_offbyone_witness :
    unpack (encParam zeroParam) = .ok zeroParam ∧
    ((LLVMFuzzerTestOneInput (encParam zeroParam) 2).2.countP isVerify) = 3 ∧
    ∀ i a pk,
      Event.verifyCall i a pk ∈ (LLVMFuzzerTestOneInput (encParam zeroParam) 2).2 →
      a = cose_of zeroParam.type ∧ pk = pk_of zeroParam :=
  ⟨rfl, spec_c6_offbyone (encParam zeroParam) zeroParam rfl 2⟩

/-- The wire-data substitution is live in the model: because the blob
mutation consumes the current blob, running the blob/string phase with and
without the preceding re-derivation step gives different results at a
concrete input and state. -/
theorem wireSubstitution_observable :
    mutateBlobsStrings (rederiveWire zeroParam) ⟨1⟩ ≠
    mutateBlobsStrings zeroParam ⟨1⟩ := by
  decide

/-- C8: wire-data re-derivation — the field-mutation phase factors as the
scalar phase, then the overwrite of the wire-data field as a function of
the just-mutated transport flag (low bit set selects the canonical U2F
wire data, otherwise the canonical FIDO2 wire data), then the blob-level
mutations; and since the blob mutation consumes the current field value,
the wire-data field of the mutated record is `mutate_blob` applied to the
flag-selected canonical example — the substitution precedes and feeds the
blob-level mutation, and the wire data of the input record is discarded. -/
theorem spec_c8_wire (p : Param) (seed : Nat) (g : Rng) :
    mutateRecord p seed g =
      mutateBlobsStrings (rederiveWire (mutateScalars p seed g).1)
        (mutateScalars p seed g).2 ∧
    (rederiveWire (mutateScalars p seed g).1).wire_data =
      (if (mutateScalars p seed g).1.u2f % 2 = 1 then dummy_wire_data_u2f
       else dummy_wire_data_fido) ∧
    (mutateRecord p seed g).1.wire_data =
      (mutate_blob
        (if (mutateScalars p seed g).1.u2f % 2 = 1 then dummy_wire_data_u2f
         else dummy_wire_data_fido)
        (mutateScalars p seed g).2).1 :=
  ⟨rfl, rfl, rfl⟩

/-- C2 counterexample: on an undecodable (empty) input with maximum output
size 1, the mutator returns a nonempty one-byte buffer — a silently
truncated record encoding — which `unpack` rejects. -/
theorem spec_c2_cex :
    (LLVMFuzzerCustomMutator [] 1 0 ⟨0⟩).1 ≠ [] ∧
    ∀ q, unpack (LLVMFuzzerCustomMutator [] 1 0 ⟨0⟩).1 ≠ .ok q := by
  have hout : (LLVMFuzzerCustomMutator [] 1 0 ⟨0⟩).1 = [TAG_UV] := rfl
  refine ⟨by rw [hout]; simp, fun q hq => ?_⟩
  rw [hout, show unpack [TAG_UV] = .error .truncated from rfl] at hq
  exact Except.noConfusion hq

/-- C2 (amended): for every input, maximum size, seed and pseudo-random
state, the mutator either returns an empty result, or a buffer that
`unpack` accepts and that re-encodes to itself (the round-trip law), or —
when the input is rejected and `maxsize` is smaller than the dummy
encoding — the truncated `maxsize`-byte prefix of the dummy encoding,
which is not a valid record. -/
theorem spec_c2_amended (data : List Nat) (maxsize seed : Nat) (g : Rng) :
    (LLVMFuzzerCustomMutator data maxsize seed g).1 = [] ∨
    (∃ r, wfParam r ∧
      unpack (LLVMFuzzerCustomMutator data maxsize seed g).1 = .ok r ∧
      encParam r = (LLVMFuzzerCustomMutator data maxsize seed g).1) ∨
    ((∀ q, unpack data ≠ .ok q) ∧ maxsize < (encParam dummyParam).length ∧
      (LLVMFuzzerCustomMutator data maxsize seed g).1 =
        (encParam dummyParam).take maxsize) := by
  cases hu : unpack data with
  | error e =>
    have hout : (LLVMFuzzerCustomMutator data maxsize seed g).1 =
        (encParam dummyParam).take maxsize := by
      rw [mutator_error data e maxsize seed g hu]
      exact pack_dummy_eq maxsize
    by_cases hm : maxsize < (encParam dummyParam).length
    · exact Or.inr (Or.inr ⟨fun q hq => Except.noConfusion hq, hm, hout⟩)
    · refine Or.inr (Or.inl ⟨dummyParam, wf_dummyParam, ?_, ?_⟩)
      · rw [hout, List.take_of_length_le (by omega)]
        exact unpack_enc dummyParam wf_dummyParam
      · rw [hout, List.take_of_length_le (by omega)]
  | ok p =>
    rw [mutator_ok data p maxsize seed g hu, mutatorEncode_fst]
    cases hp : pack 16384 (mutateRecord p seed g).1 with
    | none => exact Or.inl rfl
    | some bs =>
      have hbs : bs = encParam (mutateRecord p seed g).1 :=
        pack_eq_some 16384 (mutateRecord p seed g).1 bs hp
      have hred : (match some bs with
          | none => ([] : List Nat)
          | some bs => if maxsize < bs.length then [] else bs) =
          if maxsize < bs.length then [] else bs := rfl
      rw [hred]
      by_cases hm : maxsize < bs.length
      · rw [if_pos hm]
        exact Or.inl rfl
      · rw [if_neg hm]
        refine Or.inr (Or.inl ⟨(mutateRecord p seed g).1,
          mutateRecord_wf p seed g, ?_, hbs.symm⟩)
        rw [hbs]
        exact unpack_enc (mutateRecord p seed g).1 (mutateRecord_wf p seed g)

/-- C3 counterexample: same valid input buffer, same seed, same maximum
size, but two different states of the process-wide pseudo-random source —
the outputs differ, because `LLVMFuzzerCustomMutator` ignores its seed
argument (`(void)seed`; the seed reaches only the seed field of the record) and
draws its mutation randomness from whatever the ambient source state is. -/
theorem spec_c3_cex :
    (LLVMFuzzerCustomMutator (encParam zeroParam) 16384 0 ⟨0⟩).1 ≠
    (LLVMFuzzerCustomMutator (encParam zeroParam) 16384 0 ⟨1⟩).1 := by
  decide

/-- C3 (amended): the mutator is deterministic given the input buffer,
seed, maximum size AND the state of the pseudo-random source; moreover on
inputs `unpack` rejects the output does not depend on that state at all. -/
theorem spec_c3_amended (data : List Nat) (maxsize seed : Nat) (g1 g2 : Rng)
    (h : g1 = g2 ∨ ∀ q, unpack data ≠ .ok q) :
    (LLVMFuzzerCustomMutator data maxsize seed g1).1 =
    (LLVMFuzzerCustomMutator data maxsize seed g2).1 := by
  rcases h with h | h
  · rw [h]
  · cases hu : unpack data with
    | ok p => exact absurd hu (h p)
    | error e =>
      rw [mutator_error data e maxsize seed g1 hu,
        mutator_error data e maxsize seed g2 hu]

/-- Witness for C3 (amended) on a rejected input with two different
states. -/
theorem spec_c3_amended_witness :
    (∀ q, unpack [3] ≠ .ok q) ∧
    (LLVMFuzzerCustomMutator [3] 4 9 ⟨5⟩).1 =
      (LLVMFuzzerCustomMutator [3] 4 9 ⟨11⟩).1 := by
  have hr : ∀ q : Param, unpack [3] ≠ .ok q := fun q hq => by
    rw [show unpack [3] = .error .truncated from rfl] at hq
    exact Except.noConfusion hq
  exact ⟨hr, spec_c3_amended [3] 4 9 ⟨5⟩ ⟨11⟩ (Or.inr hr)⟩
